import Mathlib

/-!
Verification development for the basketball game simulator
(`generate_data.py`, class `BasketballReportGenerator`).

The simulator is a stochastic state machine over
  * a statistics ledger (per-team and per-player counters),
  * per-team lineup state (active / bench / disqualified lists),
  * an append-only play-by-play log,
  * a transient "last scoring play" memory used by VAR corrections.

We embed the ledger-mutating event effects (the `effect` lambdas of
`event_templates`), the lineup operations (`_handle_substitution`,
`_force_foul_out_substitution`), the log-append pattern
(`event_id = len(play_by_play) + 1`), the free-throw loop, the quarter
budget arithmetic, the disabled bonus free-throw branch, and the final
report assembly.  Random draws (which player, which outcome, which
wording) become explicit parameters of the transition constructors;
narrative description strings, whose content no verified property
depends on, are carried as data.  All counters are `Int`, with the
source's `max(0, ...)` clamps kept literally.
-/

namespace GenData

/-- Player names are strings drawn from the rosters. -/
abbrev Player := String

/-- Team names are the keys of the `self.teams` dictionary. -/
abbrev TeamName := String

/-- One statistics record, mirroring the zeroed skeleton built by
`_initialize_stats`.  The Python keys `2pt_shots_made` etc. are rendered
as `shots2_made` etc. since Lean identifiers cannot begin with a digit. -/
structure Stats where
  points : Int
  assists : Int
  rebounds : Int
  defensive_rebounds : Int
  offensive_rebounds : Int
  fouls : Int
  steals : Int
  blocks : Int
  turnovers : Int
  shots2_made : Int
  shots2_attempted : Int
  shots3_made : Int
  shots3_attempted : Int
  ft_made : Int
  ft_attempted : Int
  deriving Repr, DecidableEq

attribute [ext] Stats

/-- All-zero statistics record, as produced by `_initialize_stats`. -/
def zeroStats : Stats :=
  { points := 0, assists := 0, rebounds := 0, defensive_rebounds := 0,
    offensive_rebounds := 0, fouls := 0, steals := 0, blocks := 0,
    turnovers := 0, shots2_made := 0, shots2_attempted := 0,
    shots3_made := 0, shots3_attempted := 0, ft_made := 0, ft_attempted := 0 }

/-- The per-team entry of the `game_stats` dictionary: a team-level
`stats` record and a `players` map from player name to record. -/
structure TeamEntry where
  stats : Stats
  players : Player → Stats

/-- The full `game_stats` dictionary, keyed by team name. -/
abbrev GStats := TeamName → TeamEntry

/-- Zeroed team entry of `_initialize_stats`. -/
def zeroEntry : TeamEntry := { stats := zeroStats, players := fun _ => zeroStats }

/-- Zeroed `game_stats` (every team and player all-zero). -/
def zeroGStats : GStats := fun _ => zeroEntry

/-- Apply a function to the entry of one team (Python: in-place mutation
of `state[team]`). -/
def updTeam (st : GStats) (t : TeamName) (f : TeamEntry → TeamEntry) : GStats :=
  Function.update st t (f (st t))

/-- Apply a function to the team-level stats record of an entry. -/
def tStats (f : Stats → Stats) (e : TeamEntry) : TeamEntry :=
  { e with stats := f e.stats }

/-- Apply a function to one player's record of an entry. -/
def tPlayer (p : Player) (f : Stats → Stats) (e : TeamEntry) : TeamEntry :=
  { e with players := Function.update e.players p (f (e.players p)) }

/-! ### Event effects

Each definition below is the `effect` lambda of one entry of
`self.event_templates`, with the update steps in the source's order. -/

/-- Effect of `assist_and_score_2pt` (and of the textually different but
statistically identical `assist_and_score_2pt_opposite`). -/
def score2Effect (st : GStats) (pA pB : Player) (team : TeamName) : GStats :=
  updTeam st team (fun e =>
    tPlayer pB (fun q => { q with
        points := q.points + 2,
        shots2_made := q.shots2_made + 1,
        shots2_attempted := q.shots2_attempted + 1 })
      (tPlayer pA (fun q => { q with assists := q.assists + 1 })
        (tStats (fun q => { q with
            points := q.points + 2,
            assists := q.assists + 1,
            shots2_made := q.shots2_made + 1,
            shots2_attempted := q.shots2_attempted + 1 }) e)))

/-- Effect of `assist_and_score_3pt` (and `assist_and_score_3pt_opposite`). -/
def score3Effect (st : GStats) (pA pB : Player) (team : TeamName) : GStats :=
  updTeam st team (fun e =>
    tPlayer pB (fun q => { q with
        points := q.points + 3,
        shots3_made := q.shots3_made + 1,
        shots3_attempted := q.shots3_attempted + 1 })
      (tPlayer pA (fun q => { q with assists := q.assists + 1 })
        (tStats (fun q => { q with
            points := q.points + 3,
            assists := q.assists + 1,
            shots3_made := q.shots3_made + 1,
            shots3_attempted := q.shots3_attempted + 1 }) e)))

/-- Effect of `miss_2pt_from_pass`. -/
def miss2Effect (st : GStats) (pA pB : Player) (team : TeamName) : GStats :=
  updTeam st team (fun e =>
    tPlayer pB (fun q => { q with shots2_attempted := q.shots2_attempted + 1 })
      (tStats (fun q => { q with shots2_attempted := q.shots2_attempted + 1 }) e))

/-- Effect of `miss_3pt_from_pass`. -/
def miss3Effect (st : GStats) (pA pB : Player) (team : TeamName) : GStats :=
  updTeam st team (fun e =>
    tPlayer pB (fun q => { q with shots3_attempted := q.shots3_attempted + 1 })
      (tStats (fun q => { q with shots3_attempted := q.shots3_attempted + 1 }) e))

/-- The trailing `__setitem__` consistency fix of the VAR effects:
`2pt_shots_attempted = max(2pt_shots_attempted, 2pt_shots_made)`. -/
def fixAtt2 (q : Stats) : Stats :=
  { q with shots2_attempted := max q.shots2_attempted q.shots2_made }

/-- The trailing `__setitem__` consistency fix of the VAR effects:
`3pt_shots_attempted = max(3pt_shots_attempted, 3pt_shots_made)`. -/
def fixAtt3 (q : Stats) : Stats :=
  { q with shots3_attempted := max q.shots3_attempted q.shots3_made }

/-- Effect of `var_overturn_2pt`: reverse the 2-point score and assist
(clamped at zero), charge a foul and a turnover, then force
attempted ≥ made for the 2-point pair. -/
def var2Effect (st : GStats) (pA pB : Player) (team : TeamName) : GStats :=
  updTeam st team (fun e =>
    tPlayer pB fixAtt2
      (tStats fixAtt2
        (tPlayer pB (fun q => { q with
            points := max 0 (q.points - 2),
            fouls := q.fouls + 1,
            turnovers := q.turnovers + 1,
            shots2_made := max 0 (q.shots2_made - 1),
            shots2_attempted := max 0 (q.shots2_attempted - 1) })
          (tPlayer pA (fun q => { q with assists := max 0 (q.assists - 1) })
            (tStats (fun q => { q with
                points := max 0 (q.points - 2),
                assists := max 0 (q.assists - 1),
                fouls := q.fouls + 1,
                turnovers := q.turnovers + 1,
                shots2_made := max 0 (q.shots2_made - 1),
                shots2_attempted := max 0 (q.shots2_attempted - 1) }) e)))))

/-- Effect of `var_overturn_3pt` (shot clock violation): reverse the
3-point score and assist (clamped), charge a turnover only, then force
attempted ≥ made for the 3-point pair. -/
def var3Effect (st : GStats) (pA pB : Player) (team : TeamName) : GStats :=
  updTeam st team (fun e =>
    tPlayer pB fixAtt3
      (tStats fixAtt3
        (tPlayer pB (fun q => { q with
            points := max 0 (q.points - 3),
            turnovers := q.turnovers + 1,
            shots3_made := max 0 (q.shots3_made - 1),
            shots3_attempted := max 0 (q.shots3_attempted - 1) })
          (tPlayer pA (fun q => { q with assists := max 0 (q.assists - 1) })
            (tStats (fun q => { q with
                points := max 0 (q.points - 3),
                assists := max 0 (q.assists - 1),
                turnovers := q.turnovers + 1,
                shots3_made := max 0 (q.shots3_made - 1),
                shots3_attempted := max 0 (q.shots3_attempted - 1) }) e)))))

/-- Effect of `var_overturn_3pt_another` (released after the buzzer).
Statistically identical to `var_overturn_3pt`. -/
def var3aEffect (st : GStats) (pA pB : Player) (team : TeamName) : GStats :=
  var3Effect st pA pB team

/-- Effect of `var_change_3_to_2` (toe on the line): minus one point,
convert the 3-point make/attempt into a 2-point make/attempt; the assist
stays; both attempted ≥ made fixes run. -/
def var32Effect (st : GStats) (pA pB : Player) (team : TeamName) : GStats :=
  updTeam st team (fun e =>
    tPlayer pB fixAtt2
      (tStats fixAtt2
        (tPlayer pB fixAtt3
          (tStats fixAtt3
            (tPlayer pB (fun q => { q with
                points := max 0 (q.points - 1),
                shots3_made := max 0 (q.shots3_made - 1),
                shots3_attempted := max 0 (q.shots3_attempted - 1),
                shots2_made := q.shots2_made + 1,
                shots2_attempted := q.shots2_attempted + 1 })
              (tStats (fun q => { q with
                  points := max 0 (q.points - 1),
                  shots3_made := max 0 (q.shots3_made - 1),
                  shots3_attempted := max 0 (q.shots3_attempted - 1),
                  shots2_made := q.shots2_made + 1,
                  shots2_attempted := q.shots2_attempted + 1 }) e))))))

/-- Effect of `shooting_foul_2pt`: attempt for the shooter `pA` on
`teamA`, foul for the defender `pB` on `teamB`. -/
def sf2Effect (st : GStats) (pA pB : Player) (teamA teamB : TeamName) : GStats :=
  updTeam
    (updTeam
      (updTeam
        (updTeam st teamA
          (tStats (fun q => { q with shots2_attempted := q.shots2_attempted + 1 })))
        teamA (tPlayer pA (fun q => { q with shots2_attempted := q.shots2_attempted + 1 })))
      teamB (tStats (fun q => { q with fouls := q.fouls + 1 })))
    teamB (tPlayer pB (fun q => { q with fouls := q.fouls + 1 }))

/-- Effect of `shooting_foul_3pt`. -/
def sf3Effect (st : GStats) (pA pB : Player) (teamA teamB : TeamName) : GStats :=
  updTeam
    (updTeam
      (updTeam
        (updTeam st teamA
          (tStats (fun q => { q with shots3_attempted := q.shots3_attempted + 1 })))
        teamA (tPlayer pA (fun q => { q with shots3_attempted := q.shots3_attempted + 1 })))
      teamB (tStats (fun q => { q with fouls := q.fouls + 1 })))
    teamB (tPlayer pB (fun q => { q with fouls := q.fouls + 1 }))

/-- Effect of `ft_made`: one point and one made/attempted free throw for
player `pA` and the team. -/
def ftMadeEffect (st : GStats) (pA : Player) (team : TeamName) : GStats :=
  updTeam st team (fun e =>
    tPlayer pA (fun q => { q with
        points := q.points + 1,
        ft_made := q.ft_made + 1, ft_attempted := q.ft_attempted + 1 })
      (tStats (fun q => { q with
        points := q.points + 1,
          ft_made := q.ft_made + 1, ft_attempted := q.ft_attempted + 1 }) e))

/-- Effect of `ft_missed`: one attempted free throw only. -/
def ftMissedEffect (st : GStats) (pA : Player) (team : TeamName) : GStats :=
  updTeam st team (fun e =>
    tPlayer pA (fun q => { q with ft_attempted := q.ft_attempted + 1 })
      (tStats (fun q => { q with ft_attempted := q.ft_attempted + 1 }) e))

/-- Effect of `steal`: steal for `pA` on `teamA` (defense), turnover for
`pB` on `teamB` (offense). -/
def stealEffect (st : GStats) (pA pB : Player) (teamA teamB : TeamName) : GStats :=
  updTeam
    (updTeam
      (updTeam
        (updTeam st teamA (tStats (fun q => { q with steals := q.steals + 1 })))
        teamB (tStats (fun q => { q with turnovers := q.turnovers + 1 })))
      teamA (tPlayer pA (fun q => { q with steals := q.steals + 1 })))
    teamB (tPlayer pB (fun q => { q with turnovers := q.turnovers + 1 }))

/-- Effect of `turnover_by_bad_pass`. -/
def badPassEffect (st : GStats) (pA : Player) (team : TeamName) : GStats :=
  updTeam st team (fun e =>
    tPlayer pA (fun q => { q with turnovers := q.turnovers + 1 })
      (tStats (fun q => { q with turnovers := q.turnovers + 1 }) e))

/-- Effect of `block_on_2pt_shot`: block for `pA` on `teamA` (defense),
attempt for the shooter `pB` on `teamB` (offense). -/
def block2Effect (st : GStats) (pA pB : Player) (teamA teamB : TeamName) : GStats :=
  updTeam
    (updTeam
      (updTeam
        (updTeam st teamA (tStats (fun q => { q with blocks := q.blocks + 1 })))
        teamA (tPlayer pA (fun q => { q with blocks := q.blocks + 1 })))
      teamB (tStats (fun q => { q with shots2_attempted := q.shots2_attempted + 1 })))
    teamB (tPlayer pB (fun q => { q with shots2_attempted := q.shots2_attempted + 1 }))

/-- Effect of `block_on_3pt_shot`. -/
def block3Effect (st : GStats) (pA pB : Player) (teamA teamB : TeamName) : GStats :=
  updTeam
    (updTeam
      (updTeam
        (updTeam st teamA (tStats (fun q => { q with blocks := q.blocks + 1 })))
        teamA (tPlayer pA (fun q => { q with blocks := q.blocks + 1 })))
      teamB (tStats (fun q => { q with shots3_attempted := q.shots3_attempted + 1 })))
    teamB (tPlayer pB (fun q => { q with shots3_attempted := q.shots3_attempted + 1 }))

/-- Effect of `rebound_defensive`. -/
def rebDefEffect (st : GStats) (pA : Player) (team : TeamName) : GStats :=
  updTeam st team (fun e =>
    tPlayer pA (fun q => { q with
        rebounds := q.rebounds + 1,
        defensive_rebounds := q.defensive_rebounds + 1 })
      (tStats (fun q => { q with
        rebounds := q.rebounds + 1,
          defensive_rebounds := q.defensive_rebounds + 1 }) e))

/-- Effect of `rebound_offensive`. -/
def rebOffEffect (st : GStats) (pA : Player) (team : TeamName) : GStats :=
  updTeam st team (fun e =>
    tPlayer pA (fun q => { q with
        rebounds := q.rebounds + 1,
        offensive_rebounds := q.offensive_rebounds + 1 })
      (tStats (fun q => { q with
        rebounds := q.rebounds + 1,
          offensive_rebounds := q.offensive_rebounds + 1 }) e))

/-- Effect of `inbound_pass` (source: `lambda ...: None`, no statistical
effect). -/
def inboundEffect (st : GStats) (pA pB : Player) (team : TeamName) : GStats := st

/-- Effect of `pass_ball` (no statistical effect). -/
def passBallEffect (st : GStats) (pA pB : Player) (team : TeamName) : GStats := st

/-- Effect of `timeout` (no statistical effect). -/
def timeoutEffect (st : GStats) (coach : String) (team : TeamName) : GStats := st

/-- Effect of `game_resume` (no statistical effect). -/
def gameResumeEffect (st : GStats) : GStats := st

/-- Effect of `jump_ball` (no statistical effect). -/
def jumpBallEffect (st : GStats) (pA pB : Player) (team : TeamName) : GStats := st

/-- Effect of `end_of_game` (no statistical effect). -/
def endOfGameEffect (st : GStats) : GStats := st

/-! ### Lineups

Lineup state per team: the `game_lineups[team]` dictionary with its
`active`, `bench` and `disqualified` lists. -/

/-- Lineup state of one team. -/
structure Lineup where
  active : List Player
  bench : List Player
  dq : List Player
  deriving Repr, DecidableEq

/-- Initial lineup built in `generate_report`: first five of the
shuffled roster are active, the rest sit on the bench. -/
def initLineup (shuffled : List Player) : Lineup :=
  { active := shuffled.take 5, bench := shuffled.drop 5, dq := [] }

/-- The lineup swap performed by `_handle_substitution` once the
probability check passed and a pair was drawn: `active.remove(out)`,
`bench.append(out)`, `bench.remove(in)`, `active.append(in)`. -/
def subLineup (L : Lineup) (pout pin : Player) : Lineup :=
  { L with active := L.active.erase pout ++ [pin],
           bench := (L.bench ++ [pout]).erase pin }

/-- The `disqualified` marking step of `_force_foul_out_substitution`:
append `p` unless already present. -/
def foulOutMark (L : Lineup) (p : Player) : Lineup :=
  if p ∈ L.dq then L else { L with dq := L.dq ++ [p] }

/-! ### Play-by-play log -/

/-- Which template an appended log record came from.  The source keys
each append site by an `event_templates` name (or emits a fixed marker
string); this tag records that site. -/
inductive EKind where
  | jumpB | narration | inbound | passB | scoreK | missK | varK
  | sfoulK | ftMadeK | ftMissK | timeoutK | resumeK | stealK | badPassK
  | blockK | reboundK | subK | foulOutK | endK
  deriving Repr, DecidableEq

/-- One `play_by_play` record.  The source stores `event_id` and
`description`; `kind` additionally tags the append site (each append in
the source uses a statically known template). -/
structure LogEntry where
  event_id : Nat
  kind : EKind
  desc : String
  deriving Repr, DecidableEq

/-- The single append pattern used at every log-append site:
`play_by_play.append({"event_id": len(play_by_play) + 1, ...})`. -/
def push (log : List LogEntry) (k : EKind) (d : String) : List LogEntry :=
  log ++ [{ event_id := log.length + 1, kind := k, desc := d }]

/-- The full foul-out handler `_force_foul_out_substitution`: remove the
player from active or bench, mark them disqualified, log the event, and
if they were on court bring in `pin` from the bench (or log a
short-handed notice when the bench is empty).  `d1`/`d2` carry the
formatted message texts. -/
def applyFoulOut (L : Lineup) (p pin : Player) (log : List LogEntry)
    (d1 d2 : String) : Lineup × List LogEntry :=
  if p ∈ L.active then
    let L2 := foulOutMark { L with active := L.active.erase p } p
    let log1 := push log .foulOutK d1
    if L2.bench = [] then (L2, push log1 .narration d2)
    else ({ L2 with active := L2.active ++ [pin], bench := L2.bench.erase pin },
          push log1 .subK d2)
  else if p ∈ L.bench then
    (foulOutMark { L with bench := L.bench.erase p } p, push log .foulOutK d1)
  else (foulOutMark L p, push log .foulOutK d1)

/-! ### Rosters (the `self.teams` registry) -/

/-- Israel roster. -/
def israelPlayers : List Player :=
  ["Khadeen Carrington", "Itay Segev", "Deni Avdija", "Roman Sorkin",
   "Bar Timor", "Yam Madar", "Rafi Menco", "Nimrod Levi", "Ethan Burg",
   "Tomer Ginat", "Yovel Zoosman", "Guy Palatin"]

/-- Iceland roster. -/
def icelandPlayers : List Player :=
  ["Aegir Steinarsson", "Hilmar Henningsson", "Jon Axel Gudmundsson",
   "Elvar Fridriksson", "Almar Orri Atlason", "Karl Jonsson",
   "Kristinn Palsson", "Martin Hermannsson", "Orri Gunnarsson",
   "Tryggvi Hlinason", "Styrmir Thrastarson", "Sigtryggur Bjornsson"]

/-- Poland roster. -/
def polandPlayers : List Player :=
  ["Andrzej Pluta", "Aleksander Balcerowski", "Michal Sokolowski",
   "Jordan Loyd", "Mateusz Ponitka", "Szymon Zapala", "Aleksander Dziewa",
   "Tomasz Gielo", "Kamil Laczynski", "Dominik Olejniczak",
   "Michal Michalak", "Przemyslaw Zolnierewicz"]

/-- France roster. -/
def francePlayers : List Player :=
  ["Sylvain Francisco", "Elie Okobo", "Nadir Hifi",
   "Timothe Luwawu-Cabarrot", "Guerschon Yabusele", "Isaia Cordinier",
   "Theo Maledon", "Mouhammadou Jaiteh", "Zaccharie Risacher",
   "Jaylen Hoard", "Alexandre Sarr", "Bilal Coulibaly"]

/-- Belgium roster. -/
def belgiumPlayers : List Player :=
  ["Emmanuel Lecomte", "Jean-Marc Mwema", "Hans Vanwijn", "Loic Schwartz",
   "Kevin Tumba", "Ismael Bako", "Andy van Vliet", "Siebe Ledegen",
   "Niels Van Den Eynde", "Joppe Mennes", "Godwin Tshimanga",
   "Mamadou Guisse"]

/-- Slovenia roster. -/
def sloveniaPlayers : List Player :=
  ["Martin Krampelj", "Mark Padjen", "Aleksej Nikolic", "Klemen Prepelic",
   "Edo Muric", "Rok Radovic", "Robert Jurkovic", "Gregor Hrovat",
   "Luka Scuka", "Alen Omic", "Leon Stergar", "Luka Doncic"]

/-- The team-name keys of `self.teams`. -/
def teamKeys : List TeamName :=
  ["Israel", "Iceland", "Poland", "France", "Belgium", "Slovenia"]

/-- Full roster of a team (`self.teams[name]["players"]`). -/
def rosterOf : TeamName → List Player
  | "Israel" => israelPlayers
  | "Iceland" => icelandPlayers
  | "Poland" => polandPlayers
  | "France" => francePlayers
  | "Belgium" => belgiumPlayers
  | "Slovenia" => sloveniaPlayers
  | _ => []

/-- Per-player foul limit `self.FOUL_LIMIT`. -/
def FOUL_LIMIT : Nat := 5

/-- Per-quarter team foul limit `self.TEAM_FOUL_LIMIT`. -/
def TEAM_FOUL_LIMIT : Nat := 5

/-! ### The game state machine -/

/-- Kinds of scoring events that set the VAR memory
(`last_score_event_details['type']`). -/
inductive SKind where
  | s2 | s2o | s3 | s3o
  deriving Repr, DecidableEq

/-- Whether a scoring kind is a 3-point kind. -/
def isThreeKind : SKind → Bool
  | .s2 => false
  | .s2o => false
  | .s3 => true
  | .s3o => true

/-- Kinds of VAR correction events. -/
inductive VKind where
  | v2 | v3 | v3a | v32
  deriving Repr, DecidableEq

/-- The `var_candidates` selection: after a 2-point make only
`var_overturn_2pt` is possible; after a 3-point make the three 3-point
variants are. -/
def varMatches (k : SKind) : VKind → Prop
  | .v2 => isThreeKind k = false
  | .v3 => isThreeKind k = true
  | .v3a => isThreeKind k = true
  | .v32 => isThreeKind k = true

/-- Dispatch a scoring kind to its effect (the `_opposite` variants share
the effect of their base event). -/
def scoreEffect : SKind → GStats → Player → Player → TeamName → GStats
  | .s2 => score2Effect
  | .s2o => score2Effect
  | .s3 => score3Effect
  | .s3o => score3Effect

/-- Dispatch a VAR kind to its effect. -/
def varEffect : VKind → GStats → Player → Player → TeamName → GStats
  | .v2 => var2Effect
  | .v3 => var3Effect
  | .v3a => var3aEffect
  | .v32 => var32Effect

/-- The transient `last_score_event_details` record. -/
structure ScoreRec where
  kind : SKind
  pA : Player
  pB : Player
  team : TeamName
  deriving Repr, DecidableEq

/-- The mutable per-game state owned by `generate_report`: the stats
ledger, per-team lineups, the play-by-play log, and the VAR memory. -/
structure GState where
  stats : GStats
  lineups : TeamName → Lineup
  log : List LogEntry
  lastScore : Option ScoreRec

/-- One transition of the simulation loop.  Each constructor is one
mutation site of `generate_report` (or of a helper it calls); random
draws (players, teams, outcomes) and formatted description strings are
parameters.  `lastScore` mirrors the window in which
`last_score_event_details` is live: it is set by a scoring event,
consumed by a VAR review, and dead again before any other
stats-mutating event can run (the source resets it at the end of every
loop iteration, and the VAR check sits inside the scoring branch of the
same iteration). -/
inductive Step : GState → GState → Prop where
  | narrate (s : GState) (d : String) :
      Step s { s with log := push s.log .narration d }
  | jumpStep (s : GState) (pA pB : Player) (t : TeamName) (d : String) :
      Step s { s with stats := jumpBallEffect s.stats pA pB t,
                      log := push s.log .jumpB d }
  | inboundStep (s : GState) (pA pB : Player) (t : TeamName) (d : String) :
      Step s { s with stats := inboundEffect s.stats pA pB t,
                      log := push s.log .inbound d }
  | passStep (s : GState) (pA pB : Player) (t : TeamName) (d : String) :
      Step s { s with stats := passBallEffect s.stats pA pB t,
                      log := push s.log .passB d }
  | timeoutStep (s : GState) (coach : String) (t : TeamName) (d : String) :
      Step s { s with stats := timeoutEffect s.stats coach t,
                      log := push s.log .timeoutK d }
  | resumeStep (s : GState) (d : String) :
      Step s { s with stats := gameResumeEffect s.stats,
                      log := push s.log .resumeK d }
  | endStep (s : GState) (d : String) :
      Step s { s with stats := endOfGameEffect s.stats,
                      log := push s.log .endK d }
  | scoreStep (s : GState) (k : SKind) (pA pB : Player) (t : TeamName) (d : String) :
      Step s { s with stats := scoreEffect k s.stats pA pB t,
                      log := push s.log .scoreK d,
                      lastScore := some { kind := k, pA := pA, pB := pB, team := t } }
  | varStep (s : GState) (v : VKind) (rec : ScoreRec) (d : String)
      (hls : s.lastScore = some rec) (hm : varMatches rec.kind v)
      (hbench : v = .v2 → (s.lineups rec.team).bench ≠ []) :
      Step s { s with stats := varEffect v s.stats rec.pA rec.pB rec.team,
                      log := push s.log .varK d,
                      lastScore := none }
  | missStep (s : GState) (three : Bool) (pA pB : Player) (t : TeamName) (d : String) :
      Step s { s with stats := (if three then miss3Effect else miss2Effect) s.stats pA pB t,
                      log := push s.log .missK d,
                      lastScore := none }
  | sfStep (s : GState) (three : Bool) (shooter defender : Player)
      (tOff tDef : TeamName) (d : String)
      (hbench : (s.lineups tDef).bench ≠ []) :
      Step s { s with stats := (if three then sf3Effect else sf2Effect)
                        s.stats shooter defender tOff tDef,
                      log := push s.log .sfoulK d,
                      lastScore := none }
  | ftMadeStep (s : GState) (p : Player) (t : TeamName) (d : String) :
      Step s { s with stats := ftMadeEffect s.stats p t,
                      log := push s.log .ftMadeK d,
                      lastScore := none }
  | ftMissStep (s : GState) (p : Player) (t : TeamName) (d : String) :
      Step s { s with stats := ftMissedEffect s.stats p t,
                      log := push s.log .ftMissK d,
                      lastScore := none }
  | stealStep (s : GState) (pA pB : Player) (tDef tOff : TeamName) (d : String) :
      Step s { s with stats := stealEffect s.stats pA pB tDef tOff,
                      log := push s.log .stealK d,
                      lastScore := none }
  | badPassStep (s : GState) (p : Player) (t : TeamName) (d : String) :
      Step s { s with stats := badPassEffect s.stats p t,
                      log := push s.log .badPassK d,
                      lastScore := none }
  | blockStep (s : GState) (three : Bool) (pA pB : Player)
      (tDef tOff : TeamName) (d : String) :
      Step s { s with stats := (if three then block3Effect else block2Effect)
                        s.stats pA pB tDef tOff,
                      log := push s.log .blockK d,
                      lastScore := none }
  | rebStep (s : GState) (off : Bool) (p : Player) (t : TeamName) (d : String) :
      Step s { s with stats := (if off then rebOffEffect else rebDefEffect) s.stats p t,
                      log := push s.log .reboundK d,
                      lastScore := none }
  | subStep (s : GState) (t : TeamName) (pout pin : Player)
      (cant : Option Player) (d : String)
      (hout : pout ∈ (s.lineups t).active)
      (hin : pin ∈ (s.lineups t).bench)
      (hcant : ∀ c, cant = some c → pout ≠ c) :
      Step s { s with lineups := Function.update s.lineups t
                        (subLineup (s.lineups t) pout pin),
                      log := push s.log .subK d }
  | foulOutStep (s : GState) (t : TeamName) (p pin : Player) (d1 d2 : String)
      (hros : p ∈ rosterOf t)
      (hdq : p ∉ (s.lineups t).dq)
      (hfl : ((s.stats t).players p).fouls ≥ (FOUL_LIMIT : Int))
      (hpin : p ∈ (s.lineups t).active → (s.lineups t).bench ≠ [] →
        pin ∈ (s.lineups t).bench) :
      Step s { s with lineups := Function.update s.lineups t
                        (applyFoulOut (s.lineups t) p pin s.log d1 d2).1,
                      log := (applyFoulOut (s.lineups t) p pin s.log d1 d2).2 }

/-- Zero or more transitions. -/
def ReachFrom : GState → GState → Prop := Relation.ReflTransGen Step

/-- The random draws made by `generate_report` before the main loop:
two teams, a shuffle of each roster, the jump-ball participants and
winner. -/
structure InitData where
  teamA : TeamName
  teamB : TeamName
  shuffleA : List Player
  shuffleB : List Player
  jumpDesc : String

/-- The game state right before the main loop: zeroed stats, the
take-5/drop-5 lineup split of each shuffled roster, and a log holding
the jump-ball record and the "Start of Q1." record. -/
def initState (d : InitData) : GState :=
  { stats := zeroGStats,
    lineups := fun t =>
      if t = d.teamA then initLineup d.shuffleA
      else if t = d.teamB then initLineup d.shuffleB
      else { active := [], bench := [], dq := [] },
    log := push (push [] .jumpB d.jumpDesc) .narration "Start of Q1.",
    lastScore := none }

/-- Validity of the pre-loop draws: two distinct registered teams, each
shuffle a permutation of the corresponding roster. -/
def InitOK (d : InitData) : Prop :=
  d.teamA ∈ teamKeys ∧ d.teamB ∈ teamKeys ∧ d.teamA ≠ d.teamB ∧
  d.shuffleA.Perm (rosterOf d.teamA) ∧ d.shuffleB.Perm (rosterOf d.teamB)

/-! ### Statistics invariants

`StatOK` is the conjunction of the numeric invariants maintained by the
ledger: every counter nonnegative, attempted at least made for each shot
pair, and the points identity
`points = 2 * 2pt_made + 3 * 3pt_made + ft_made`. -/

/-- Every counter of a record is nonnegative. -/
def StatNonneg (q : Stats) : Prop :=
  0 ≤ q.points ∧ 0 ≤ q.assists ∧ 0 ≤ q.rebounds ∧ 0 ≤ q.defensive_rebounds ∧
  0 ≤ q.offensive_rebounds ∧ 0 ≤ q.fouls ∧ 0 ≤ q.steals ∧ 0 ≤ q.blocks ∧
  0 ≤ q.turnovers ∧ 0 ≤ q.shots2_made ∧ 0 ≤ q.shots2_attempted ∧
  0 ≤ q.shots3_made ∧ 0 ≤ q.shots3_attempted ∧ 0 ≤ q.ft_made ∧ 0 ≤ q.ft_attempted

/-- Attempted at least made, for each of the three shot categories. -/
def ShotPairsOK (q : Stats) : Prop :=
  q.shots2_made ≤ q.shots2_attempted ∧ q.shots3_made ≤ q.shots3_attempted ∧
  q.ft_made ≤ q.ft_attempted

/-- The points identity. -/
def PointsIdent (q : Stats) : Prop :=
  q.points = 2 * q.shots2_made + 3 * q.shots3_made + q.ft_made

/-- All numeric invariants of one record. -/
def StatOK (q : Stats) : Prop := StatNonneg q ∧ ShotPairsOK q ∧ PointsIdent q

/-- All records of a team entry satisfy `StatOK`. -/
def EntryOK (e : TeamEntry) : Prop := StatOK e.stats ∧ ∀ p, StatOK (e.players p)

/-- All records of the whole ledger satisfy `StatOK`. -/
def StatsOK (st : GStats) : Prop := ∀ t, EntryOK (st t)

/-- Lower bounds guaranteed while the VAR memory holds record `r`: the
counters a matching VAR correction will subtract are present in the
ledger (so the `max(0, ...)` clamps subtract exactly). -/
def ScoreBounds (st : GStats) (r : ScoreRec) : Prop :=
  if isThreeKind r.kind then
    3 ≤ (st r.team).stats.points ∧ 1 ≤ (st r.team).stats.shots3_made ∧
    3 ≤ ((st r.team).players r.pB).points ∧ 1 ≤ ((st r.team).players r.pB).shots3_made
  else
    2 ≤ (st r.team).stats.points ∧ 1 ≤ (st r.team).stats.shots2_made ∧
    2 ≤ ((st r.team).players r.pB).points ∧ 1 ≤ ((st r.team).players r.pB).shots2_made

/-- The inductive invariant of the simulation: ledger invariants, plus
the VAR-memory bounds whenever the memory is set. -/
def Inv (s : GState) : Prop :=
  StatsOK s.stats ∧ ∀ r, s.lastScore = some r → ScoreBounds s.stats r

lemma statsOK_score2 (st : GStats) (pA pB : Player) (t : TeamName)
    (h : StatsOK st) : StatsOK (score2Effect st pA pB t) := by
  intro u
  simp only [score2Effect, updTeam, Function.update_apply]
  split
  · obtain ⟨h1, h2⟩ := h t
    refine ⟨?_, fun p => ?_⟩
    · simp only [tPlayer, tStats]
      unfold StatOK StatNonneg ShotPairsOK PointsIdent at *
      dsimp only at *
      omega
    · simp only [tPlayer, tStats, Function.update_apply]
      have hA := h2 pA
      have hB := h2 pB
      have hp := h2 p
      unfold StatOK StatNonneg ShotPairsOK PointsIdent at *
      split_ifs <;> subst_vars <;> (try simp only [Function.update_apply]) <;>
      (try split_ifs) <;> (try subst_vars) <;> (try dsimp only) <;> omega
  · exact h u

lemma statsOK_score3 (st : GStats) (pA pB : Player) (t : TeamName)
    (h : StatsOK st) : StatsOK (score3Effect st pA pB t) := by
  intro u
  simp only [score3Effect, updTeam, Function.update_apply]
  split
  · obtain ⟨h1, h2⟩ := h t
    refine ⟨?_, fun p => ?_⟩
    · simp only [tPlayer, tStats]
      unfold StatOK StatNonneg ShotPairsOK PointsIdent at *
      dsimp only at *
      omega
    · simp only [tPlayer, tStats, Function.update_apply]
      have hA := h2 pA
      have hB := h2 pB
      have hp := h2 p
      unfold StatOK StatNonneg ShotPairsOK PointsIdent at *
      split_ifs <;> subst_vars <;> (try simp only [Function.update_apply]) <;>
      (try split_ifs) <;> (try subst_vars) <;> (try dsimp only) <;> omega
  · exact h u

lemma statsOK_miss2 (st : GStats) (pA pB : Player) (t : TeamName)
    (h : StatsOK st) : StatsOK (miss2Effect st pA pB t) := by
  intro u
  simp only [miss2Effect, updTeam, Function.update_apply]
  split
  · obtain ⟨h1, h2⟩ := h t
    refine ⟨?_, fun p => ?_⟩
    · simp only [tPlayer, tStats]
      unfold StatOK StatNonneg ShotPairsOK PointsIdent at *
      dsimp only at *
      omega
    · simp only [tPlayer, tStats, Function.update_apply]
      have hB := h2 pB
      have hp := h2 p
      unfold StatOK StatNonneg ShotPairsOK PointsIdent at *
      split_ifs <;> subst_vars <;> (try simp only [Function.update_apply]) <;>
      (try split_ifs) <;> (try subst_vars) <;> (try dsimp only) <;> omega
  · exact h u

lemma statsOK_miss3 (st : GStats) (pA pB : Player) (t : TeamName)
    (h : StatsOK st) : StatsOK (miss3Effect st pA pB t) := by
  intro u
  simp only [miss3Effect, updTeam, Function.update_apply]
  split
  · obtain ⟨h1, h2⟩ := h t
    refine ⟨?_, fun p => ?_⟩
    · simp only [tPlayer, tStats]
      unfold StatOK StatNonneg ShotPairsOK PointsIdent at *
      dsimp only at *
      omega
    · simp only [tPlayer, tStats, Function.update_apply]
      have hB := h2 pB
      have hp := h2 p
      unfold StatOK StatNonneg ShotPairsOK PointsIdent at *
      split_ifs <;> subst_vars <;> (try simp only [Function.update_apply]) <;>
      (try split_ifs) <;> (try subst_vars) <;> (try dsimp only) <;> omega
  · exact h u

lemma statsOK_var2 (st : GStats) (pA pB : Player) (t : TeamName)
    (h : StatsOK st)
    (hb : 2 ≤ (st t).stats.points ∧ 1 ≤ (st t).stats.shots2_made ∧
      2 ≤ ((st t).players pB).points ∧ 1 ≤ ((st t).players pB).shots2_made) :
    StatsOK (var2Effect st pA pB t) := by
  intro u
  simp only [var2Effect, updTeam, Function.update_apply]
  split
  · obtain ⟨h1, h2⟩ := h t
    refine ⟨?_, fun p => ?_⟩
    · simp only [tPlayer, tStats, fixAtt2, fixAtt3]
      unfold StatOK StatNonneg ShotPairsOK PointsIdent at *
      dsimp only at *
      omega
    · simp only [tPlayer, tStats, fixAtt2, fixAtt3, Function.update_apply]
      have hA := h2 pA
      have hB := h2 pB
      have hp := h2 p
      unfold StatOK StatNonneg ShotPairsOK PointsIdent at *
      split_ifs <;> subst_vars <;> (try simp only [Function.update_apply]) <;>
      (try split_ifs) <;> (try subst_vars) <;> (try dsimp only) <;> omega
  · exact h u

lemma statsOK_var3 (st : GStats) (pA pB : Player) (t : TeamName)
    (h : StatsOK st)
    (hb : 3 ≤ (st t).stats.points ∧ 1 ≤ (st t).stats.shots3_made ∧
      3 ≤ ((st t).players pB).points ∧ 1 ≤ ((st t).players pB).shots3_made) :
    StatsOK (var3Effect st pA pB t) := by
  intro u
  simp only [var3Effect, updTeam, Function.update_apply]
  split
  · obtain ⟨h1, h2⟩ := h t
    refine ⟨?_, fun p => ?_⟩
    · simp only [tPlayer, tStats, fixAtt2, fixAtt3]
      unfold StatOK StatNonneg ShotPairsOK PointsIdent at *
      dsimp only at *
      omega
    · simp only [tPlayer, tStats, fixAtt2, fixAtt3, Function.update_apply]
      have hA := h2 pA
      have hB := h2 pB
      have hp := h2 p
      unfold StatOK StatNonneg ShotPairsOK PointsIdent at *
      split_ifs <;> subst_vars <;> (try simp only [Function.update_apply]) <;>
      (try split_ifs) <;> (try subst_vars) <;> (try dsimp only) <;> omega
  · exact h u

lemma statsOK_var32 (st : GStats) (pA pB : Player) (t : TeamName)
    (h : StatsOK st)
    (hb : 3 ≤ (st t).stats.points ∧ 1 ≤ (st t).stats.shots3_made ∧
      3 ≤ ((st t).players pB).points ∧ 1 ≤ ((st t).players pB).shots3_made) :
    StatsOK (var32Effect st pA pB t) := by
  intro u
  simp only [var32Effect, updTeam, Function.update_apply]
  split
  · obtain ⟨h1, h2⟩ := h t
    refine ⟨?_, fun p => ?_⟩
    · simp only [tPlayer, tStats, fixAtt2, fixAtt3]
      unfold StatOK StatNonneg ShotPairsOK PointsIdent at *
      dsimp only at *
      omega
    · simp only [tPlayer, tStats, fixAtt2, fixAtt3, Function.update_apply]
      have hA := h2 pA
      have hB := h2 pB
      have hp := h2 p
      unfold StatOK StatNonneg ShotPairsOK PointsIdent at *
      split_ifs <;> subst_vars <;> (try simp only [Function.update_apply]) <;>
      (try split_ifs) <;> (try subst_vars) <;> (try dsimp only) <;> omega
  · exact h u

lemma statsOK_ftMade (st : GStats) (pA : Player) (t : TeamName)
    (h : StatsOK st) : StatsOK (ftMadeEffect st pA t) := by
  intro u
  simp only [ftMadeEffect, updTeam, Function.update_apply]
  split
  · obtain ⟨h1, h2⟩ := h t
    refine ⟨?_, fun p => ?_⟩
    · simp only [tPlayer, tStats]
      unfold StatOK StatNonneg ShotPairsOK PointsIdent at *
      dsimp only at *
      omega
    · simp only [tPlayer, tStats, Function.update_apply]
      have hA := h2 pA
      have hp := h2 p
      unfold StatOK StatNonneg ShotPairsOK PointsIdent at *
      split_ifs <;> subst_vars <;> (try simp only [Function.update_apply]) <;>
      (try split_ifs) <;> (try subst_vars) <;> (try dsimp only) <;> omega
  · exact h u

lemma statsOK_ftMissed (st : GStats) (pA : Player) (t : TeamName)
    (h : StatsOK st) : StatsOK (ftMissedEffect st pA t) := by
  intro u
  simp only [ftMissedEffect, updTeam, Function.update_apply]
  split
  · obtain ⟨h1, h2⟩ := h t
    refine ⟨?_, fun p => ?_⟩
    · simp only [tPlayer, tStats]
      unfold StatOK StatNonneg ShotPairsOK PointsIdent at *
      dsimp only at *
      omega
    · simp only [tPlayer, tStats, Function.update_apply]
      have hA := h2 pA
      have hp := h2 p
      unfold StatOK StatNonneg ShotPairsOK PointsIdent at *
      split_ifs <;> subst_vars <;> (try simp only [Function.update_apply]) <;>
      (try split_ifs) <;> (try subst_vars) <;> (try dsimp only) <;> omega
  · exact h u

lemma statsOK_badPass (st : GStats) (pA : Player) (t : TeamName)
    (h : StatsOK st) : StatsOK (badPassEffect st pA t) := by
  intro u
  simp only [badPassEffect, updTeam, Function.update_apply]
  split
  · obtain ⟨h1, h2⟩ := h t
    refine ⟨?_, fun p => ?_⟩
    · simp only [tPlayer, tStats]
      unfold StatOK StatNonneg ShotPairsOK PointsIdent at *
      dsimp only at *
      omega
    · simp only [tPlayer, tStats, Function.update_apply]
      have hA := h2 pA
      have hp := h2 p
      unfold StatOK StatNonneg ShotPairsOK PointsIdent at *
      split_ifs <;> subst_vars <;> (try simp only [Function.update_apply]) <;>
      (try split_ifs) <;> (try subst_vars) <;> (try dsimp only) <;> omega
  · exact h u

lemma statsOK_rebDef (st : GStats) (pA : Player) (t : TeamName)
    (h : StatsOK st) : StatsOK (rebDefEffect st pA t) := by
  intro u
  simp only [rebDefEffect, updTeam, Function.update_apply]
  split
  · obtain ⟨h1, h2⟩ := h t
    refine ⟨?_, fun p => ?_⟩
    · simp only [tPlayer, tStats]
      unfold StatOK StatNonneg ShotPairsOK PointsIdent at *
      dsimp only at *
      omega
    · simp only [tPlayer, tStats, Function.update_apply]
      have hA := h2 pA
      have hp := h2 p
      unfold StatOK StatNonneg ShotPairsOK PointsIdent at *
      split_ifs <;> subst_vars <;> (try simp only [Function.update_apply]) <;>
      (try split_ifs) <;> (try subst_vars) <;> (try dsimp only) <;> omega
  · exact h u

lemma statsOK_rebOff (st : GStats) (pA : Player) (t : TeamName)
    (h : StatsOK st) : StatsOK (rebOffEffect st pA t) := by
  intro u
  simp only [rebOffEffect, updTeam, Function.update_apply]
  split
  · obtain ⟨h1, h2⟩ := h t
    refine ⟨?_, fun p => ?_⟩
    · simp only [tPlayer, tStats]
      unfold StatOK StatNonneg ShotPairsOK PointsIdent at *
      dsimp only at *
      omega
    · simp only [tPlayer, tStats, Function.update_apply]
      have hA := h2 pA
      have hp := h2 p
      unfold StatOK StatNonneg ShotPairsOK PointsIdent at *
      split_ifs <;> subst_vars <;> (try simp only [Function.update_apply]) <;>
      (try split_ifs) <;> (try subst_vars) <;> (try dsimp only) <;> omega
  · exact h u

lemma statsOK_sf2 (st : GStats) (pA pB : Player) (tA tB : TeamName)
    (h : StatsOK st) : StatsOK (sf2Effect st pA pB tA tB) := by
  intro u
  refine ⟨?_, fun p => ?_⟩
  · have e1 := (h tA).1
    have e2 := (h tB).1
    have e3 := (h u).1
    simp only [sf2Effect, updTeam, tPlayer, tStats, Function.update_apply]
    unfold StatOK StatNonneg ShotPairsOK PointsIdent at *
    split_ifs <;> subst_vars <;> (try simp only [Function.update_apply]) <;>
      (try split_ifs) <;> (try subst_vars) <;> (try dsimp only) <;> omega
  · have hApA := (h tA).2 pA
    have hApB := (h tA).2 pB
    have hAp := (h tA).2 p
    have hBpA := (h tB).2 pA
    have hBpB := (h tB).2 pB
    have hBp := (h tB).2 p
    have hupA := (h u).2 pA
    have hupB := (h u).2 pB
    have hup := (h u).2 p
    simp only [sf2Effect, updTeam, tPlayer, tStats, Function.update_apply]
    unfold StatOK StatNonneg ShotPairsOK PointsIdent at *
    split_ifs <;> subst_vars <;> (try simp only [Function.update_apply]) <;>
      (try split_ifs) <;> (try subst_vars) <;> (try dsimp only) <;> omega

lemma statsOK_sf3 (st : GStats) (pA pB : Player) (tA tB : TeamName)
    (h : StatsOK st) : StatsOK (sf3Effect st pA pB tA tB) := by
  intro u
  refine ⟨?_, fun p => ?_⟩
  · have e1 := (h tA).1
    have e2 := (h tB).1
    have e3 := (h u).1
    simp only [sf3Effect, updTeam, tPlayer, tStats, Function.update_apply]
    unfold StatOK StatNonneg ShotPairsOK PointsIdent at *
    split_ifs <;> subst_vars <;> (try simp only [Function.update_apply]) <;>
      (try split_ifs) <;> (try subst_vars) <;> (try dsimp only) <;> omega
  · have hApA := (h tA).2 pA
    have hApB := (h tA).2 pB
    have hAp := (h tA).2 p
    have hBpA := (h tB).2 pA
    have hBpB := (h tB).2 pB
    have hBp := (h tB).2 p
    have hupA := (h u).2 pA
    have hupB := (h u).2 pB
    have hup := (h u).2 p
    simp only [sf3Effect, updTeam, tPlayer, tStats, Function.update_apply]
    unfold StatOK StatNonneg ShotPairsOK PointsIdent at *
    split_ifs <;> subst_vars <;> (try simp only [Function.update_apply]) <;>
      (try split_ifs) <;> (try subst_vars) <;> (try dsimp only) <;> omega

lemma statsOK_steal (st : GStats) (pA pB : Player) (tA tB : TeamName)
    (h : StatsOK st) : StatsOK (stealEffect st pA pB tA tB) := by
  intro u
  refine ⟨?_, fun p => ?_⟩
  · have e1 := (h tA).1
    have e2 := (h tB).1
    have e3 := (h u).1
    simp only [stealEffect, updTeam, tPlayer, tStats, Function.update_apply]
    unfold StatOK StatNonneg ShotPairsOK PointsIdent at *
    split_ifs <;> subst_vars <;> (try simp only [Function.update_apply]) <;>
      (try split_ifs) <;> (try subst_vars) <;> (try dsimp only) <;> omega
  · have hApA := (h tA).2 pA
    have hApB := (h tA).2 pB
    have hAp := (h tA).2 p
    have hBpA := (h tB).2 pA
    have hBpB := (h tB).2 pB
    have hBp := (h tB).2 p
    have hupA := (h u).2 pA
    have hupB := (h u).2 pB
    have hup := (h u).2 p
    simp only [stealEffect, updTeam, tPlayer, tStats, Function.update_apply]
    unfold StatOK StatNonneg ShotPairsOK PointsIdent at *
    split_ifs <;> subst_vars <;> (try simp only [Function.update_apply]) <;>
      (try split_ifs) <;> (try subst_vars) <;> (try dsimp only) <;> omega

lemma statsOK_block2 (st : GStats) (pA pB : Player) (tA tB : TeamName)
    (h : StatsOK st) : StatsOK (block2Effect st pA pB tA tB) := by
  intro u
  refine ⟨?_, fun p => ?_⟩
  · have e1 := (h tA).1
    have e2 := (h tB).1
    have e3 := (h u).1
    simp only [block2Effect, updTeam, tPlayer, tStats, Function.update_apply]
    unfold StatOK StatNonneg ShotPairsOK PointsIdent at *
    split_ifs <;> subst_vars <;> (try simp only [Function.update_apply]) <;>
      (try split_ifs) <;> (try subst_vars) <;> (try dsimp only) <;> omega
  · have hApA := (h tA).2 pA
    have hApB := (h tA).2 pB
    have hAp := (h tA).2 p
    have hBpA := (h tB).2 pA
    have hBpB := (h tB).2 pB
    have hBp := (h tB).2 p
    have hupA := (h u).2 pA
    have hupB := (h u).2 pB
    have hup := (h u).2 p
    simp only [block2Effect, updTeam, tPlayer, tStats, Function.update_apply]
    unfold StatOK StatNonneg ShotPairsOK PointsIdent at *
    split_ifs <;> subst_vars <;> (try simp only [Function.update_apply]) <;>
      (try split_ifs) <;> (try subst_vars) <;> (try dsimp only) <;> omega

lemma statsOK_block3 (st : GStats) (pA pB : Player) (tA tB : TeamName)
    (h : StatsOK st) : StatsOK (block3Effect st pA pB tA tB) := by
  intro u
  refine ⟨?_, fun p => ?_⟩
  · have e1 := (h tA).1
    have e2 := (h tB).1
    have e3 := (h u).1
    simp only [block3Effect, updTeam, tPlayer, tStats, Function.update_apply]
    unfold StatOK StatNonneg ShotPairsOK PointsIdent at *
    split_ifs <;> subst_vars <;> (try simp only [Function.update_apply]) <;>
      (try split_ifs) <;> (try subst_vars) <;> (try dsimp only) <;> omega
  · have hApA := (h tA).2 pA
    have hApB := (h tA).2 pB
    have hAp := (h tA).2 p
    have hBpA := (h tB).2 pA
    have hBpB := (h tB).2 pB
    have hBp := (h tB).2 p
    have hupA := (h u).2 pA
    have hupB := (h u).2 pB
    have hup := (h u).2 p
    simp only [block3Effect, updTeam, tPlayer, tStats, Function.update_apply]
    unfold StatOK StatNonneg ShotPairsOK PointsIdent at *
    split_ifs <;> subst_vars <;> (try simp only [Function.update_apply]) <;>
      (try split_ifs) <;> (try subst_vars) <;> (try dsimp only) <;> omega

lemma scoreBounds_score2 (st : GStats) (pA pB : Player) (t : TeamName)
    (h : StatsOK st) :
    2 ≤ ((score2Effect st pA pB t) t).stats.points ∧
    1 ≤ ((score2Effect st pA pB t) t).stats.shots2_made ∧
    2 ≤ (((score2Effect st pA pB t) t).players pB).points ∧
    1 ≤ (((score2Effect st pA pB t) t).players pB).shots2_made := by
  have h1 := (h t).1
  have hA := (h t).2 pA
  have hB := (h t).2 pB
  simp only [score2Effect, updTeam, tPlayer, tStats, Function.update_apply]
  unfold StatOK StatNonneg ShotPairsOK PointsIdent at h1 hA hB
  split_ifs <;> subst_vars <;> (try simp only [Function.update_apply]) <;>
    (try split_ifs) <;> (try subst_vars) <;> (try dsimp only) <;>
    first
    | omega
    | exact absurd rfl (by assumption)

lemma scoreBounds_score3 (st : GStats) (pA pB : Player) (t : TeamName)
    (h : StatsOK st) :
    3 ≤ ((score3Effect st pA pB t) t).stats.points ∧
    1 ≤ ((score3Effect st pA pB t) t).stats.shots3_made ∧
    3 ≤ (((score3Effect st pA pB t) t).players pB).points ∧
    1 ≤ (((score3Effect st pA pB t) t).players pB).shots3_made := by
  have h1 := (h t).1
  have hA := (h t).2 pA
  have hB := (h t).2 pB
  simp only [score3Effect, updTeam, tPlayer, tStats, Function.update_apply]
  unfold StatOK StatNonneg ShotPairsOK PointsIdent at h1 hA hB
  split_ifs <;> subst_vars <;> (try simp only [Function.update_apply]) <;>
    (try split_ifs) <;> (try subst_vars) <;> (try dsimp only) <;>
    first
    | omega
    | exact absurd rfl (by assumption)

lemma statsOK_scoreEffect (k : SKind) (st : GStats) (pA pB : Player) (t : TeamName)
    (h : StatsOK st) : StatsOK (scoreEffect k st pA pB t) := by
  cases k
  · exact statsOK_score2 st pA pB t h
  · exact statsOK_score2 st pA pB t h
  · exact statsOK_score3 st pA pB t h
  · exact statsOK_score3 st pA pB t h

lemma scoreBounds_scoreEffect (k : SKind) (st : GStats) (pA pB : Player) (t : TeamName)
    (h : StatsOK st) :
    ScoreBounds (scoreEffect k st pA pB t)
      { kind := k, pA := pA, pB := pB, team := t } := by
  cases k <;> simp only [ScoreBounds, isThreeKind, scoreEffect] <;>
    simp only [Bool.false_eq_true, if_false, if_true, ite_true, ite_false] <;>
    first
    | exact scoreBounds_score2 st pA pB t h
    | exact scoreBounds_score3 st pA pB t h

/-- The all-zero ledger satisfies every numeric invariant. -/
lemma statsOK_zero : StatsOK zeroGStats := by
  intro t
  refine ⟨?_, fun p => ?_⟩ <;>
    · unfold zeroGStats zeroEntry zeroStats StatOK StatNonneg ShotPairsOK PointsIdent
      dsimp only
      omega

lemma inv_init (d : InitData) : Inv (initState d) := by
  refine ⟨statsOK_zero, fun r hr => ?_⟩
  simp only [initState] at hr
  exact (Option.noConfusion hr)

lemma inv_step {s s' : GState} (h : Step s s') (hi : Inv s) : Inv s' := by
  obtain ⟨hst, hls⟩ := hi
  cases h with
  | narrate d => exact ⟨hst, hls⟩
  | jumpStep pA pB t d => exact ⟨hst, hls⟩
  | inboundStep pA pB t d => exact ⟨hst, hls⟩
  | passStep pA pB t d => exact ⟨hst, hls⟩
  | timeoutStep coach t d => exact ⟨hst, hls⟩
  | resumeStep d => exact ⟨hst, hls⟩
  | endStep d => exact ⟨hst, hls⟩
  | scoreStep k pA pB t d =>
      refine ⟨statsOK_scoreEffect k s.stats pA pB t hst, fun r hr => ?_⟩
      cases hr
      exact scoreBounds_scoreEffect k s.stats pA pB t hst
  | varStep v rec d hlsr hm hbench =>
      refine ⟨?_, fun r hr => Option.noConfusion hr⟩
      have hb := hls rec hlsr
      cases v with
      | v2 =>
          unfold varMatches at hm
          unfold ScoreBounds at hb
          rw [hm] at hb
          simp only [Bool.false_eq_true, if_false] at hb
          exact statsOK_var2 s.stats rec.pA rec.pB rec.team hst hb
      | v3 =>
          unfold varMatches at hm
          unfold ScoreBounds at hb
          rw [hm] at hb
          simp only [if_true] at hb
          exact statsOK_var3 s.stats rec.pA rec.pB rec.team hst hb
      | v3a =>
          unfold varMatches at hm
          unfold ScoreBounds at hb
          rw [hm] at hb
          simp only [if_true] at hb
          exact statsOK_var3 s.stats rec.pA rec.pB rec.team hst hb
      | v32 =>
          unfold varMatches at hm
          unfold ScoreBounds at hb
          rw [hm] at hb
          simp only [if_true] at hb
          exact statsOK_var32 s.stats rec.pA rec.pB rec.team hst hb
  | missStep three pA pB t d =>
      refine ⟨?_, fun r hr => Option.noConfusion hr⟩
      cases three
      · exact statsOK_miss2 s.stats pA pB t hst
      · exact statsOK_miss3 s.stats pA pB t hst
  | sfStep three shooter defender tOff tDef d hbench =>
      refine ⟨?_, fun r hr => Option.noConfusion hr⟩
      cases three
      · exact statsOK_sf2 s.stats shooter defender tOff tDef hst
      · exact statsOK_sf3 s.stats shooter defender tOff tDef hst
  | ftMadeStep p t d =>
      exact ⟨statsOK_ftMade s.stats p t hst, fun r hr => Option.noConfusion hr⟩
  | ftMissStep p t d =>
      exact ⟨statsOK_ftMissed s.stats p t hst, fun r hr => Option.noConfusion hr⟩
  | stealStep pA pB tDef tOff d =>
      exact ⟨statsOK_steal s.stats pA pB tDef tOff hst, fun r hr => Option.noConfusion hr⟩
  | badPassStep p t d =>
      exact ⟨statsOK_badPass s.stats p t hst, fun r hr => Option.noConfusion hr⟩
  | blockStep three pA pB tDef tOff d =>
      refine ⟨?_, fun r hr => Option.noConfusion hr⟩
      cases three
      · exact statsOK_block2 s.stats pA pB tDef tOff hst
      · exact statsOK_block3 s.stats pA pB tDef tOff hst
  | rebStep off p t d =>
      refine ⟨?_, fun r hr => Option.noConfusion hr⟩
      cases off
      · exact statsOK_rebDef s.stats p t hst
      · exact statsOK_rebOff s.stats p t hst
  | subStep t pout pin cant d hout hin hcant => exact ⟨hst, hls⟩
  | foulOutStep t p pin d1 d2 hros hdq hfl hpin => exact ⟨hst, hls⟩

lemma inv_reach {a s : GState} (h : ReachFrom a s) (ha : Inv a) : Inv s := by
  induction h with
  | refl => exact ha
  | tail _ h2 ih => exact inv_step h2 ih

/-! ### Lineup invariants -/

/-- Multiset form of the roster partition: the three lineup lists
together hold exactly the roster. -/
def LPart (L : Lineup) (R : List Player) : Prop :=
  ((L.active : Multiset Player) + L.bench + L.dq) = (R : Multiset Player)

lemma coe_eq_cons_erase {l : List Player} {a : Player} (h : a ∈ l) :
    (l : Multiset Player) = a ::ₘ (l.erase a : List Player) := by
  rw [Multiset.cons_coe]
  exact Multiset.coe_eq_coe.2 (List.perm_cons_erase h)

lemma lpart_sub {L : Lineup} {R : List Player} {pout pin : Player}
    (hout : pout ∈ L.active) (hin : pin ∈ L.bench) (h : LPart L R) :
    LPart (subLineup L pout pin) R := by
  unfold LPart subLineup at *
  dsimp only at *
  rw [List.erase_append_left _ hin, ← h,
    coe_eq_cons_erase hout, coe_eq_cons_erase hin]
  simp only [← Multiset.coe_add]
  push_cast
  simp only [← Multiset.singleton_add]
  abel

lemma lpart_mem {L : Lineup} {R : List Player} {p : Player}
    (h : LPart L R) (hR : p ∈ R) :
    p ∈ L.active ∨ p ∈ L.bench ∨ p ∈ L.dq := by
  unfold LPart at h
  have : p ∈ ((L.active : Multiset Player) + L.bench + L.dq) := by
    rw [h]
    exact_mod_cast hR
  simpa [Multiset.mem_add, or_assoc] using this

lemma lpart_foulOut {L : Lineup} {R : List Player} {p pin : Player}
    (hdq : p ∉ L.dq) (hR : p ∈ R)
    (hpin : p ∈ L.active → L.bench ≠ [] → pin ∈ L.bench)
    (h : LPart L R) (log : List LogEntry) (d1 d2 : String) :
    LPart (applyFoulOut L p pin log d1 d2).1 R := by
  unfold applyFoulOut foulOutMark
  by_cases h1 : p ∈ L.active
  · simp only [h1, if_true, hdq, if_false]
    by_cases h2 : L.bench = []
    · simp only [h2, if_true]
      unfold LPart at *
      dsimp only at *
      rw [← h, coe_eq_cons_erase h1]
      simp only [← Multiset.coe_add]
      push_cast
      simp only [← Multiset.singleton_add, h2]
      push_cast
      abel
    · simp only [h2, if_false]
      have hin := hpin h1 h2
      unfold LPart at *
      dsimp only at *
      rw [← h, coe_eq_cons_erase h1, coe_eq_cons_erase hin]
      simp only [← Multiset.coe_add]
      push_cast
      simp only [← Multiset.singleton_add]
      abel
  · by_cases h2 : p ∈ L.bench
    · simp only [h1, if_false, h2, if_true, hdq]
      unfold LPart at *
      dsimp only at *
      rw [← h, coe_eq_cons_erase h2]
      simp only [← Multiset.coe_add]
      push_cast
      simp only [← Multiset.singleton_add]
      abel
    · exfalso
      rcases lpart_mem h hR with hc | hc | hc
      · exact h1 hc
      · exact h2 hc
      · exact hdq hc

lemma dq_foulOut_sub (L : Lineup) (p pin : Player) (log : List LogEntry)
    (d1 d2 : String) :
    L.dq ⊆ (applyFoulOut L p pin log d1 d2).1.dq := by
  unfold applyFoulOut foulOutMark
  dsimp only
  intro x hx
  split_ifs <;>
    simp_all [List.mem_append]

/-- Each transition can only grow a team's disqualified list. -/
lemma dq_mono_step {s s' : GState} (h : Step s s') (t : TeamName) :
    (s.lineups t).dq ⊆ (s'.lineups t).dq := by
  cases h with
  | subStep t0 pout pin cant d hout hin hcant =>
      intro x hx
      simp only [Function.update_apply]
      split
      · subst_vars
        exact hx
      · exact hx
  | foulOutStep t0 p pin d1 d2 hros hdq hfl hpin =>
      intro x hx
      simp only [Function.update_apply]
      split
      · subst_vars
        exact dq_foulOut_sub _ _ _ _ _ _ hx
      · exact hx
  | _ => exact fun x hx => hx

/-- Each transition preserves the roster partition of every team. -/
lemma lpart_step {s s' : GState} (h : Step s s') (t : TeamName)
    (hp : LPart (s.lineups t) (rosterOf t)) :
    LPart (s'.lineups t) (rosterOf t) := by
  cases h with
  | subStep t0 pout pin cant d hout hin hcant =>
      simp only [Function.update_apply]
      split
      · subst_vars
        exact lpart_sub hout hin hp
      · exact hp
  | foulOutStep t0 p pin d1 d2 hros hdq hfl hpin =>
      simp only [Function.update_apply]
      split
      · subst_vars
        exact lpart_foulOut hdq hros hpin hp _ _ _
      · exact hp
  | _ => exact hp

lemma lpart_reach {a s : GState} (h : ReachFrom a s) (t : TeamName)
    (hp : LPart (a.lineups t) (rosterOf t)) :
    LPart (s.lineups t) (rosterOf t) := by
  induction h with
  | refl => exact hp
  | tail _ h2 ih => exact lpart_step h2 t ih

lemma dq_mono_reach {a s : GState} (h : ReachFrom a s) (t : TeamName) :
    (a.lineups t).dq ⊆ (s.lineups t).dq := by
  induction h with
  | refl => exact fun x hx => hx
  | tail _ h2 ih => exact fun x hx => dq_mono_step h2 t (ih hx)

/-! ### Play-by-play log invariants -/

/-- The event ids of a log are exactly `1, 2, ..., length`. -/
def LogIdsOK (log : List LogEntry) : Prop :=
  log.map LogEntry.event_id = List.range' 1 log.length

lemma push_eq_append (log : List LogEntry) (k : EKind) (d : String) :
    push log k d = log ++ [{ event_id := log.length + 1, kind := k, desc := d }] := rfl

lemma logIdsOK_push (log : List LogEntry) (k : EKind) (d : String)
    (h : LogIdsOK log) : LogIdsOK (push log k d) := by
  unfold LogIdsOK push at *
  simp [List.range'_1_concat, h, Nat.add_comm]

lemma logIdsOK_applyFoulOut (L : Lineup) (p pin : Player)
    (log : List LogEntry) (d1 d2 : String) (h : LogIdsOK log) :
    LogIdsOK (applyFoulOut L p pin log d1 d2).2 := by
  unfold applyFoulOut
  dsimp only
  split_ifs <;>
    first
    | exact logIdsOK_push _ _ _ (logIdsOK_push _ _ _ h)
    | exact logIdsOK_push _ _ _ h

lemma push2_eq_append (log : List LogEntry) (k1 k2 : EKind) (d1 d2 : String) :
    ∃ u, push (push log k1 d1) k2 d2 = log ++ u :=
  ⟨[{ event_id := log.length + 1, kind := k1, desc := d1 },
    { event_id := log.length + 1 + 1, kind := k2, desc := d2 }], by
    simp [push]⟩

lemma applyFoulOut_log (L : Lineup) (p pin : Player)
    (log : List LogEntry) (d1 d2 : String) :
    ∃ u, (applyFoulOut L p pin log d1 d2).2 = log ++ u := by
  unfold applyFoulOut
  dsimp only
  split_ifs <;>
    first
    | exact push2_eq_append log _ _ d1 d2
    | exact ⟨_, rfl⟩

lemma logIdsOK_step {s s' : GState} (h : Step s s') (hl : LogIdsOK s.log) :
    LogIdsOK s'.log := by
  cases h
  case foulOutStep t p pin d1 d2 hros hdq hfl hpin =>
    exact logIdsOK_applyFoulOut _ _ _ _ _ _ hl
  all_goals exact logIdsOK_push _ _ _ hl

lemma log_extend_step {s s' : GState} (h : Step s s') :
    ∃ u, s'.log = s.log ++ u := by
  cases h
  case foulOutStep t p pin d1 d2 hros hdq hfl hpin =>
    exact applyFoulOut_log _ _ _ _ _ _
  all_goals exact ⟨_, rfl⟩

lemma logIdsOK_reach {a s : GState} (h : ReachFrom a s) (ha : LogIdsOK a.log) :
    LogIdsOK s.log := by
  induction h with
  | refl => exact ha
  | tail _ h2 ih => exact logIdsOK_step h2 ih

lemma log_extend_reach {a s : GState} (h : ReachFrom a s) :
    ∃ u, s.log = a.log ++ u := by
  induction h with
  | refl => exact ⟨[], by simp⟩
  | tail _ h2 ih =>
      obtain ⟨u1, e1⟩ := ih
      obtain ⟨u2, e2⟩ := log_extend_step h2
      exact ⟨u1 ++ u2, by rw [e2, e1, List.append_assoc]⟩

lemma logIdsOK_init (d : InitData) : LogIdsOK (initState d).log := by
  apply logIdsOK_push
  apply logIdsOK_push
  rfl

lemma lpart_counts {L : Lineup} {R : List Player} (h : LPart L R) (q : Player) :
    L.active.count q + L.bench.count q + L.dq.count q = R.count q := by
  have hc := congrArg (Multiset.count q) h
  simp only [Multiset.count_add, Multiset.coe_count] at hc
  omega

lemma lpart_partition {L : Lineup} {R : List Player} (h : LPart L R) (hR : R.Nodup) :
    (∀ q, (q ∈ L.active ∨ q ∈ L.bench ∨ q ∈ L.dq) ↔ q ∈ R) ∧
    (∀ q, q ∈ L.active → q ∉ L.bench ∧ q ∉ L.dq) ∧
    (∀ q, q ∈ L.bench → q ∉ L.dq) := by
  have hcnt := lpart_counts h
  have hone := List.nodup_iff_count_le_one.1 hR
  refine ⟨fun q => ?_, fun q hq => ?_, fun q hq => ?_⟩
  · have h1 := hcnt q
    have h2 := hone q
    rw [← List.count_pos_iff (l := L.active), ← List.count_pos_iff (l := L.bench),
      ← List.count_pos_iff (l := L.dq), ← List.count_pos_iff (l := R)]
    omega
  · have h1 := hcnt q
    have h2 := hone q
    rw [← List.count_pos_iff] at hq
    rw [← List.count_pos_iff (l := L.bench), ← List.count_pos_iff (l := L.dq)]
    omega
  · have h1 := hcnt q
    have h2 := hone q
    rw [← List.count_pos_iff] at hq
    rw [← List.count_pos_iff (l := L.dq)]
    omega

lemma lpart_init (d : InitData) (hd : InitOK d) (t : TeamName)
    (ht : t = d.teamA ∨ t = d.teamB) :
    LPart ((initState d).lineups t) (rosterOf t) := by
  obtain ⟨hA, hB, hne, hpA, hpB⟩ := hd
  unfold LPart initState initLineup
  dsimp only
  rcases ht with h | h
  · subst h
    rw [if_pos rfl]
    rw [← Multiset.coe_eq_coe.2 hpA]
    simp only [Multiset.coe_nil, add_zero, Multiset.coe_add, List.take_append_drop]
  · subst h
    rw [if_neg (Ne.symm hne), if_pos rfl]
    rw [← Multiset.coe_eq_coe.2 hpB]
    simp only [Multiset.coe_nil, add_zero, Multiset.coe_add, List.take_append_drop]

lemma rosterOf_nodup_of_mem {t : TeamName} (h : t ∈ teamKeys) :
    (rosterOf t).Nodup := by
  unfold teamKeys at h
  fin_cases h <;> decide

/-! ### A concrete mini-trace used to witness the reachability theorems -/

/-- Concrete pre-loop draws: Israel vs Iceland, identity shuffles. -/
def witInit : InitData :=
  { teamA := "Israel", teamB := "Iceland", shuffleA := israelPlayers,
    shuffleB := icelandPlayers, jumpDesc := "Jump ball." }

lemma witInitOK : InitOK witInit := by
  refine ⟨by decide, by decide, by decide, List.Perm.refl _, List.Perm.refl _⟩

/-- VAR memory record of the concrete scoring play. -/
def witRec : ScoreRec :=
  { kind := .s2, pA := "Khadeen Carrington", pB := "Itay Segev", team := "Israel" }

def witStateA : GState := initState witInit

def witStateB : GState :=
  { witStateA with
      stats := scoreEffect SKind.s2 witStateA.stats
        "Khadeen Carrington" "Itay Segev" "Israel",
      log := push witStateA.log .scoreK "score",
      lastScore := some witRec }

def witStateC : GState :=
  { witStateB with
      stats := varEffect VKind.v2 witStateB.stats witRec.pA witRec.pB witRec.team,
      log := push witStateB.log .varK "var",
      lastScore := none }

def witStateD : GState :=
  { witStateC with
      lineups := Function.update witStateC.lineups "Israel"
        (subLineup (witStateC.lineups "Israel") "Khadeen Carrington" "Yam Madar"),
      log := push witStateC.log .subK "sub" }

lemma witStepAB : Step witStateA witStateB :=
  Step.scoreStep witStateA SKind.s2 "Khadeen Carrington" "Itay Segev" "Israel" "score"

lemma witStepBC : Step witStateB witStateC :=
  Step.varStep witStateB VKind.v2 witRec "var" rfl rfl (fun _ => by decide)

lemma witStepCD : Step witStateC witStateD :=
  Step.subStep witStateC "Israel" "Khadeen Carrington" "Yam Madar" none "sub"
    (by decide) (by decide) (fun c hc => by cases hc)

lemma witReachAB : ReachFrom witStateA witStateB :=
  Relation.ReflTransGen.single witStepAB

lemma witReachAC : ReachFrom witStateA witStateC :=
  Relation.ReflTransGen.tail witReachAB witStepBC

lemma witReachCD : ReachFrom witStateC witStateD :=
  Relation.ReflTransGen.single witStepCD

lemma witReachBD : ReachFrom witStateB witStateD :=
  Relation.ReflTransGen.tail (Relation.ReflTransGen.single witStepBC) witStepCD

/-! ### Claim theorems -/

/-- C1: in every generated game, at every reachable point of the
simulation (including immediately after every VAR correction), every
team-level and every player-level record satisfies attempted ≥ made for
the 2-point, 3-point and free-throw categories. -/
theorem shot_consistency_invariant (d : InitData) (s : GState)
    (hd : InitOK d) (hr : ReachFrom (initState d) s) (t : TeamName) :
    ShotPairsOK (s.stats t).stats ∧
      ∀ p : Player, ShotPairsOK ((s.stats t).players p) := by
  have hi := inv_reach hr (inv_init d)
  exact ⟨((hi.1 t).1).2.1, fun p => ((hi.1 t).2 p).2.1⟩

/-- Witness for C1: the invariant evaluated after a concrete
score-then-VAR-overturn trace. -/
theorem shot_consistency_invariant_witness :
    ShotPairsOK ((witStateC.stats "Israel").stats) ∧
      ∀ p : Player, ShotPairsOK ((witStateC.stats "Israel").players p) :=
  shot_consistency_invariant witInit witStateC witInitOK witReachAC "Israel"

/-- C10: at every reachable state, team-level and player-level points
equal `2 * 2pt_made + 3 * 3pt_made + ft_made`; the zero-clamps of the
VAR effects never break the identity because a VAR effect only fires
while the matching scoring effect's memory is live. -/
theorem points_identity_invariant (d : InitData) (s : GState)
    (hd : InitOK d) (hr : ReachFrom (initState d) s) (t : TeamName) :
    PointsIdent (s.stats t).stats ∧
      ∀ p : Player, PointsIdent ((s.stats t).players p) := by
  have hi := inv_reach hr (inv_init d)
  exact ⟨((hi.1 t).1).2.2, fun p => ((hi.1 t).2 p).2.2⟩

/-- Witness for C10 after the concrete score-then-overturn trace. -/
theorem points_identity_invariant_witness :
    PointsIdent ((witStateC.stats "Israel").stats) ∧
      ∀ p : Player, PointsIdent ((witStateC.stats "Israel").players p) :=
  points_identity_invariant witInit witStateC witInitOK witReachAC "Israel"

/-- C3: at every reachable step, for each playing team, the active,
bench and disqualified lists partition the full roster (mutually
disjoint, union the roster); and a player once disqualified stays
disqualified and never reappears in active or bench. -/
theorem roster_partition_invariant (d : InitData) (s1 s2 : GState)
    (t : TeamName) (p : Player) (hd : InitOK d)
    (ht : t = d.teamA ∨ t = d.teamB)
    (h1 : ReachFrom (initState d) s1) (h2 : ReachFrom s1 s2) :
    ((∀ q, (q ∈ (s2.lineups t).active ∨ q ∈ (s2.lineups t).bench ∨
        q ∈ (s2.lineups t).dq) ↔ q ∈ rosterOf t) ∧
      (∀ q, q ∈ (s2.lineups t).active →
        q ∉ (s2.lineups t).bench ∧ q ∉ (s2.lineups t).dq) ∧
      (∀ q, q ∈ (s2.lineups t).bench → q ∉ (s2.lineups t).dq)) ∧
    (p ∈ (s1.lineups t).dq →
      p ∈ (s2.lineups t).dq ∧ p ∉ (s2.lineups t).active ∧
        p ∉ (s2.lineups t).bench) := by
  have hnd : (rosterOf t).Nodup := by
    rcases ht with h | h <;> subst h
    · exact rosterOf_nodup_of_mem hd.1
    · exact rosterOf_nodup_of_mem hd.2.1
  have hl2 : LPart (s2.lineups t) (rosterOf t) :=
    lpart_reach (Relation.ReflTransGen.trans h1 h2) t (lpart_init d hd t ht)
  have hpart := lpart_partition hl2 hnd
  refine ⟨hpart, fun hp => ?_⟩
  have hdq2 : p ∈ (s2.lineups t).dq := dq_mono_reach h2 t hp
  refine ⟨hdq2, fun ha => (hpart.2.1 p ha).2 hdq2, fun hb => (hpart.2.2 p hb) hdq2⟩

/-- Witness for C3 on the concrete trace ending in a substitution. -/
theorem roster_partition_invariant_witness :
    ((∀ q, (q ∈ (witStateD.lineups "Israel").active ∨
        q ∈ (witStateD.lineups "Israel").bench ∨
        q ∈ (witStateD.lineups "Israel").dq) ↔ q ∈ rosterOf "Israel") ∧
      (∀ q, q ∈ (witStateD.lineups "Israel").active →
        q ∉ (witStateD.lineups "Israel").bench ∧
          q ∉ (witStateD.lineups "Israel").dq) ∧
      (∀ q, q ∈ (witStateD.lineups "Israel").bench →
        q ∉ (witStateD.lineups "Israel").dq)) ∧
    ("Luka Doncic" ∈ (witStateC.lineups "Israel").dq →
      "Luka Doncic" ∈ (witStateD.lineups "Israel").dq ∧
        "Luka Doncic" ∉ (witStateD.lineups "Israel").active ∧
        "Luka Doncic" ∉ (witStateD.lineups "Israel").bench) :=
  roster_partition_invariant witInit witStateC witStateD "Israel" "Luka Doncic"
    witInitOK (Or.inl rfl) witReachAC witReachCD

/-- C5: for every reachable state, the `event_id`s of the play-by-play
log are exactly `1..N` (1-based, gap-free, repeat-free), and the log is
append-only: any later reachable state's log extends it. -/
theorem play_by_play_ids (d : InitData) (s s2 : GState) (hd : InitOK d)
    (h1 : ReachFrom (initState d) s) (h2 : ReachFrom s s2) :
    s.log.map LogEntry.event_id = List.range' 1 s.log.length ∧
    ∃ u, s2.log = s.log ++ u :=
  ⟨logIdsOK_reach h1 (logIdsOK_init d), log_extend_reach h2⟩

/-- Witness for C5 on the concrete trace. -/
theorem play_by_play_ids_witness :
    witStateB.log.map LogEntry.event_id = List.range' 1 witStateB.log.length ∧
    ∃ u, witStateD.log = witStateB.log ++ u :=
  play_by_play_ids witInit witStateB witStateD witInitOK witReachAB witReachBD

/-! ### VAR reversal (C2) -/

/-- The counters a VAR overturn explicitly adds on top of restoring the
pre-score values: a foul and a turnover for the offensive-foul variant
(`var_overturn_2pt`), a turnover only for the timing-violation variants. -/
def overturnExtra (v : VKind) (q : Stats) : Stats :=
  match v with
  | .v2 => { q with fouls := q.fouls + 1, turnovers := q.turnovers + 1 }
  | _ => { q with turnovers := q.turnovers + 1 }

lemma updTeam_same (st : GStats) (t : TeamName) (f : TeamEntry → TeamEntry) :
    (updTeam st t f) t = f (st t) := by
  simp [updTeam]

lemma updTeam_other (st : GStats) (t : TeamName) (f : TeamEntry → TeamEntry)
    (u : TeamName) (h : u ≠ t) : (updTeam st t f) u = st u := by
  simp [updTeam, Function.update_apply, h]

set_option maxHeartbeats 1000000 in
lemma var2_reverses_score2 (st : GStats) (pA pB : Player) (t : TeamName)
    (hok : StatsOK st) :
    (∀ u, u ≠ t → var2Effect (score2Effect st pA pB t) pA pB t u = st u) ∧
    ((var2Effect (score2Effect st pA pB t) pA pB t) t).stats
        = overturnExtra VKind.v2 ((st t).stats) ∧
    (∀ p, ((var2Effect (score2Effect st pA pB t) pA pB t) t).players p
        = (if p = pB then overturnExtra VKind.v2 ((st t).players p)
           else (st t).players p)) := by
  obtain ⟨hts, htp⟩ := hok t
  obtain ⟨hn1, hs1, hi1⟩ := hts
  obtain ⟨hnA, hsA, hiA⟩ := htp pA
  obtain ⟨hnB, hsB, hiB⟩ := htp pB
  refine ⟨fun u hu => ?_, ?_, fun p => ?_⟩
  · rw [var2Effect, score2Effect, updTeam_other _ _ _ _ hu, updTeam_other _ _ _ _ hu]
  · simp only [var2Effect, score2Effect, updTeam_same, tPlayer, tStats, fixAtt2,
      overturnExtra]
    unfold StatNonneg ShotPairsOK PointsIdent at *
    rw [Stats.ext_iff]
    (try dsimp only)
    omega
  · obtain ⟨hnp, hsp, hip⟩ := htp p
    simp only [var2Effect, score2Effect, updTeam_same, tPlayer, tStats, fixAtt2,
      overturnExtra, Function.update_apply]
    unfold StatNonneg ShotPairsOK PointsIdent at *
    split_ifs <;> subst_vars <;> (try simp only [Function.update_apply]) <;>
      (try split_ifs) <;> (try subst_vars) <;> (try dsimp only) <;>
      first
      | (rw [Stats.ext_iff] <;> (try dsimp only) <;> omega)
      | rfl
      | exact absurd rfl (by assumption)

set_option maxHeartbeats 1000000 in
lemma var3_reverses_score3 (st : GStats) (pA pB : Player) (t : TeamName)
    (hok : StatsOK st) :
    (∀ u, u ≠ t → var3Effect (score3Effect st pA pB t) pA pB t u = st u) ∧
    ((var3Effect (score3Effect st pA pB t) pA pB t) t).stats
        = overturnExtra VKind.v3 ((st t).stats) ∧
    (∀ p, ((var3Effect (score3Effect st pA pB t) pA pB t) t).players p
        = (if p = pB then overturnExtra VKind.v3 ((st t).players p)
           else (st t).players p)) := by
  obtain ⟨hts, htp⟩ := hok t
  obtain ⟨hn1, hs1, hi1⟩ := hts
  obtain ⟨hnA, hsA, hiA⟩ := htp pA
  obtain ⟨hnB, hsB, hiB⟩ := htp pB
  refine ⟨fun u hu => ?_, ?_, fun p => ?_⟩
  · rw [var3Effect, score3Effect, updTeam_other _ _ _ _ hu, updTeam_other _ _ _ _ hu]
  · simp only [var3Effect, score3Effect, updTeam_same, tPlayer, tStats, fixAtt3,
      overturnExtra]
    unfold StatNonneg ShotPairsOK PointsIdent at *
    rw [Stats.ext_iff]
    (try dsimp only)
    omega
  · obtain ⟨hnp, hsp, hip⟩ := htp p
    simp only [var3Effect, score3Effect, updTeam_same, tPlayer, tStats, fixAtt3,
      overturnExtra, Function.update_apply]
    unfold StatNonneg ShotPairsOK PointsIdent at *
    split_ifs <;> subst_vars <;> (try simp only [Function.update_apply]) <;>
      (try split_ifs) <;> (try subst_vars) <;> (try dsimp only) <;>
      first
      | (rw [Stats.ext_iff] <;> (try dsimp only) <;> omega)
      | rfl
      | exact absurd rfl (by assumption)

/-- C2: applying the matching VAR-overturn effect immediately after a
scoring effect (same passer, scorer, team) restores every counter of the
team, the passer and the scorer to its pre-score value, except that the
offensive-foul variant adds one foul and one turnover and the
timing-violation variants add one turnover (to team and scorer); all
other teams and players are untouched, and no counter becomes negative
(the resulting ledger still satisfies every numeric invariant). -/
theorem var_overturn_reversal (st : GStats) (pA pB : Player) (t : TeamName)
    (k : SKind) (v : VKind) (hok : StatsOK st)
    (hv : v = VKind.v2 ∨ v = VKind.v3 ∨ v = VKind.v3a)
    (hm : varMatches k v) :
    (∀ u, u ≠ t → varEffect v (scoreEffect k st pA pB t) pA pB t u = st u) ∧
    ((varEffect v (scoreEffect k st pA pB t) pA pB t) t).stats
        = overturnExtra v ((st t).stats) ∧
    (∀ p, ((varEffect v (scoreEffect k st pA pB t) pA pB t) t).players p
        = (if p = pB then overturnExtra v ((st t).players p)
           else (st t).players p)) ∧
    StatsOK (varEffect v (scoreEffect k st pA pB t) pA pB t) := by
  have hsc := statsOK_scoreEffect k st pA pB t hok
  have hbd := scoreBounds_scoreEffect k st pA pB t hok
  unfold ScoreBounds at hbd
  rcases hv with rfl | rfl | rfl
  · cases k with
    | s2 =>
        obtain ⟨g1, g2, g3⟩ := var2_reverses_score2 st pA pB t hok
        simp only [isThreeKind, Bool.false_eq_true, if_false] at hbd
        exact ⟨g1, g2, g3, statsOK_var2 _ pA pB t hsc hbd⟩
    | s2o =>
        obtain ⟨g1, g2, g3⟩ := var2_reverses_score2 st pA pB t hok
        simp only [isThreeKind, Bool.false_eq_true, if_false] at hbd
        exact ⟨g1, g2, g3, statsOK_var2 _ pA pB t hsc hbd⟩
    | s3 => simp [varMatches, isThreeKind] at hm
    | s3o => simp [varMatches, isThreeKind] at hm
  · cases k with
    | s2 => simp [varMatches, isThreeKind] at hm
    | s2o => simp [varMatches, isThreeKind] at hm
    | s3 =>
        obtain ⟨g1, g2, g3⟩ := var3_reverses_score3 st pA pB t hok
        simp only [isThreeKind, if_true] at hbd
        exact ⟨g1, g2, g3, statsOK_var3 _ pA pB t hsc hbd⟩
    | s3o =>
        obtain ⟨g1, g2, g3⟩ := var3_reverses_score3 st pA pB t hok
        simp only [isThreeKind, if_true] at hbd
        exact ⟨g1, g2, g3, statsOK_var3 _ pA pB t hsc hbd⟩
  · cases k with
    | s2 => simp [varMatches, isThreeKind] at hm
    | s2o => simp [varMatches, isThreeKind] at hm
    | s3 =>
        obtain ⟨g1, g2, g3⟩ := var3_reverses_score3 st pA pB t hok
        simp only [isThreeKind, if_true] at hbd
        exact ⟨g1, g2, g3, statsOK_var3 _ pA pB t hsc hbd⟩
    | s3o =>
        obtain ⟨g1, g2, g3⟩ := var3_reverses_score3 st pA pB t hok
        simp only [isThreeKind, if_true] at hbd
        exact ⟨g1, g2, g3, statsOK_var3 _ pA pB t hsc hbd⟩

/-- Witness for C2: score-then-overturn on the zero ledger with a
3-point make waved off by a shot clock violation. -/
theorem var_overturn_reversal_witness :
    (∀ u, u ≠ "Israel" →
      varEffect VKind.v3 (scoreEffect SKind.s3 zeroGStats "Bar Timor" "Yam Madar" "Israel")
        "Bar Timor" "Yam Madar" "Israel" u = zeroGStats u) ∧
    ((varEffect VKind.v3 (scoreEffect SKind.s3 zeroGStats "Bar Timor" "Yam Madar" "Israel")
        "Bar Timor" "Yam Madar" "Israel") "Israel").stats
        = overturnExtra VKind.v3 ((zeroGStats "Israel").stats) ∧
    (∀ p, ((varEffect VKind.v3 (scoreEffect SKind.s3 zeroGStats "Bar Timor" "Yam Madar" "Israel")
        "Bar Timor" "Yam Madar" "Israel") "Israel").players p
        = (if p = "Yam Madar" then overturnExtra VKind.v3 ((zeroGStats "Israel").players p)
           else (zeroGStats "Israel").players p)) ∧
    StatsOK (varEffect VKind.v3 (scoreEffect SKind.s3 zeroGStats "Bar Timor" "Yam Madar" "Israel")
        "Bar Timor" "Yam Madar" "Israel") :=
  var_overturn_reversal zeroGStats "Bar Timor" "Yam Madar" "Israel" SKind.s3 VKind.v3
    statsOK_zero (Or.inr (Or.inl rfl)) rfl

/-- C9: the `timeout`, `inbound_pass`, `pass_ball`, `jump_ball`,
`game_resume` and `end_of_game` effects leave every team-level and
player-level statistic counter unchanged. -/
theorem no_effect_events (st : GStats) (pA pB : Player) (coach : String)
    (t : TeamName) :
    timeoutEffect st coach t = st ∧ inboundEffect st pA pB t = st ∧
    passBallEffect st pA pB t = st ∧ jumpBallEffect st pA pB t = st ∧
    gameResumeEffect st = st ∧ endOfGameEffect st = st :=
  ⟨rfl, rfl, rfl, rfl, rfl, rfl⟩

/-! ### Quarter and overtime budgets (C7) -/

/-- The per-quarter event budgets of `generate_report`:
`base = max(0, target_events // 4)`, one extra to each of the first
`target_events % 4` quarters. -/
def quarterTargets (target : Nat) : List Nat :=
  (List.range 4).map (fun i => max 0 (target / 4) + (if i < target % 4 then 1 else 0))

/-- Appending one overtime period's budget:
`ot_cap = max(1, quarter_targets[0] // 2)` is pushed onto the list. -/
def appendOT (qts : List Nat) : List Nat :=
  qts ++ [max 1 (qts.headD 0 / 2)]

lemma quarterTargets_eq (T : Nat) :
    quarterTargets T =
      [max 0 (T / 4) + (if 0 < T % 4 then 1 else 0),
       max 0 (T / 4) + (if 1 < T % 4 then 1 else 0),
       max 0 (T / 4) + (if 2 < T % 4 then 1 else 0),
       max 0 (T / 4) + (if 3 < T % 4 then 1 else 0)] := rfl

lemma appendOT_iterate (T n : Nat) :
    appendOT^[n] (quarterTargets T) =
      quarterTargets T ++
        List.replicate n (max 1 ((quarterTargets T).headD 0 / 2)) := by
  induction n with
  | zero => simp
  | succ n ih =>
      rw [Function.iterate_succ_apply', ih]
      unfold appendOT
      rw [quarterTargets_eq]
      simp [List.replicate_succ']

/-- C7: the four quarter budgets are `T / 4` each, with one extra unit
to each of the first `T % 4` quarters; they sum to `T`; earlier quarters
are never smaller than later ones; and every appended overtime period's
budget equals `max 1 (firstQuarterBudget / 2)`. -/
theorem quarter_budgets (T : Nat) :
    (∀ i, i < 4 →
      (quarterTargets T).getD i 0 = T / 4 + (if i < T % 4 then 1 else 0)) ∧
    (quarterTargets T).sum = T ∧
    (∀ i j, i ≤ j → j < 4 →
      (quarterTargets T).getD j 0 ≤ (quarterTargets T).getD i 0) ∧
    (∀ n, appendOT^[n] (quarterTargets T)
        = quarterTargets T ++
          List.replicate n (max 1 ((T / 4 + (if 0 < T % 4 then 1 else 0)) / 2))) := by
  refine ⟨?_, ?_, ?_, ?_⟩
  · intro i hi
    interval_cases i <;> simp [quarterTargets_eq] <;> split_ifs <;> omega
  · simp [quarterTargets_eq]
    split_ifs <;> omega
  · intro i j hij hj
    have hi : i < 4 := lt_of_le_of_lt hij hj
    interval_cases i <;> interval_cases j <;>
      simp [quarterTargets_eq] <;> split_ifs <;> omega
  · intro n
    rw [appendOT_iterate]
    rw [quarterTargets_eq]
    simp only [List.headD_cons]
    congr 2
    split_ifs <;> omega

/-- Witness for C7 at the concrete targets used by the three
difficulty levels. -/
theorem quarter_budgets_witness :
    (quarterTargets 150).getD 1 0 = 150 / 4 + (if 1 < 150 % 4 then 1 else 0) ∧
    (quarterTargets 600).sum = 600 ∧
    (quarterTargets 900).getD 3 0 ≤ (quarterTargets 900).getD 0 0 ∧
    appendOT^[2] (quarterTargets 150)
      = quarterTargets 150 ++
        List.replicate 2 (max 1 ((150 / 4 + (if 0 < 150 % 4 then 1 else 0)) / 2)) :=
  ⟨(quarter_budgets 150).1 1 (by decide),
   (quarter_budgets 600).2.1,
   (quarter_budgets 900).2.2.1 0 3 (by decide) (by decide),
   (quarter_budgets 150).2.2.2 2⟩

/-! ### Disabled bonus free-throw branch (C8) -/

/-- Debug flag `self.DEBUG_TEAM_FOULS`. -/
def DEBUG_TEAM_FOULS : Bool := false

/-- State touched by the team-foul accounting after an offensive-foul
VAR outcome: ledger, log, possession, ball pointer and the per-quarter
team-foul counters. -/
structure BonusCtx where
  stats : GStats
  log : List LogEntry
  possession : TeamName
  ball : Option Player
  teamFouls : TeamName → Nat

/-- Body of the bonus branch (the block guarded by
`if False and (team_fouls_in_quarter[team_v] >= self.TEAM_FOUL_LIMIT)`):
award message, two coin-flipped free throws for the victim on the
non-fouling team, last shot deciding possession, rebound on a missed
last shot.  Modelled in full so that the unreachability theorem is
about the real branch body, not a stub. -/
def bonusBlock (teamV bonusTeam : TeamName) (ftShooter : Player)
    (coin1 coin2 : Bool) (rebOff : Bool) (rebounder : Player)
    (c : BonusCtx) : BonusCtx :=
  let award := ftShooter ++ " is awarded two free throws (team fouls in bonus)."
  let mk1 := ftShooter ++ " makes the first free throw."
  let ms1 := ftShooter ++ " misses the first free throw."
  let mk2 := ftShooter ++ " makes the second free throw."
  let ms2 := ftShooter ++ " misses the second free throw."
  let rb := "Rebound by " ++ rebounder ++ "."
  let c0 := { c with log := push c.log .narration award }
  let c1 :=
    if coin1 then
      { c0 with stats := ftMadeEffect c0.stats ftShooter bonusTeam,
                log := push c0.log .ftMadeK mk1 }
    else
      { c0 with stats := ftMissedEffect c0.stats ftShooter bonusTeam,
                log := push c0.log .ftMissK ms1 }
  if coin2 then
    { c1 with stats := ftMadeEffect c1.stats ftShooter bonusTeam,
              log := push c1.log .ftMadeK mk2,
              possession := teamV, ball := none }
  else
    let c2 := { c1 with stats := ftMissedEffect c1.stats ftShooter bonusTeam,
                        log := push c1.log .ftMissK ms2 }
    let rebTeam := if rebOff then bonusTeam else teamV
    { c2 with stats := (if rebOff then rebOffEffect else rebDefEffect)
                c2.stats rebounder rebTeam,
              log := push c2.log .reboundK rb,
              possession := rebTeam, ball := some rebounder }

/-- The team-foul accounting run after an offensive-foul VAR outcome:
increment the offending team's per-quarter counter, optionally log a
debug line, then the constant-false bonus guard. -/
def varFoulAccounting (teamV bonusTeam : TeamName) (victim : Player)
    (coin1 coin2 : Bool) (rebOff : Bool) (rebounder : Player)
    (c : BonusCtx) : BonusCtx :=
  let tf := Function.update c.teamFouls teamV (c.teamFouls teamV + 1)
  let c1 := { c with teamFouls := tf }
  let c2 :=
    if DEBUG_TEAM_FOULS then
      { c1 with log := push c1.log .narration "Team fouls this quarter." }
    else c1
  if false && decide (TEAM_FOUL_LIMIT ≤ c2.teamFouls teamV) then
    bonusBlock teamV bonusTeam victim coin1 coin2 rebOff rebounder c2
  else c2

/-- C8: the per-quarter team-foul counter is incremented, but the bonus
free-throw branch behind the constant-false guard is unreachable: for
every input (including counters at or beyond `TEAM_FOUL_LIMIT`) the
stats ledger, log, possession and ball pointer are returned unchanged. -/
theorem bonus_branch_unreachable (teamV bonusTeam : TeamName)
    (victim : Player) (coin1 coin2 rebOff : Bool) (rebounder : Player)
    (c : BonusCtx) :
    varFoulAccounting teamV bonusTeam victim coin1 coin2 rebOff rebounder c
      = { c with teamFouls :=
            Function.update c.teamFouls teamV (c.teamFouls teamV + 1) } := by
  unfold varFoulAccounting DEBUG_TEAM_FOULS
  simp

/-! ### Shooting-foul free-throw loop (C6) -/

/-- Per-shot randomness of the free-throw loop: the made/missed coin
and the optional substitution draws taken between non-final shots
(offense first, with the shooter protected, then defense). -/
structure FTShot where
  made : Bool
  subOff : Option (Player × Player)
  subDef : Option (Player × Player)

/-- State threaded through the free-throw loop. -/
structure FTCtx where
  stats : GStats
  lineups : TeamName → Lineup
  log : List LogEntry
  possession : TeamName
  ball : Option Player

/-- The `ordinals` table of the free-throw loop. -/
def ordinalName : Nat → String
  | 0 => "first"
  | 1 => "second"
  | _ => "third"

/-- One optional substitution: the lineup swap and log line of
`_handle_substitution` when the probability coin and both choices came
up (`none` models a skipped substitution). -/
def applySubOpt (coach : String) (t : TeamName) (ch : Option (Player × Player))
    (lineups : TeamName → Lineup) (log : List LogEntry) :
    (TeamName → Lineup) × List LogEntry :=
  match ch with
  | none => (lineups, log)
  | some (pout, pin) =>
      (Function.update lineups t (subLineup (lineups t) pout pin),
       push log .subK ("Substitution by " ++ coach ++ ": " ++ pin
         ++ " comes in for " ++ pout ++ "."))

/-- The free-throw loop of the shooting-foul handler
(`for i in range(num_shots)`): a made shot scores and, on the last shot,
flips possession and clears the ball; a missed last shot triggers the
rebound sub-sequence; between non-final shots both teams get a
substitution opportunity. -/
def ftLoop (offT defT : TeamName) (coachO coachD : String) (shooter : Player)
    (rebOff : Bool) (rebounder : Player) :
    Nat → List FTShot → FTCtx → FTCtx
  | _, [], c => c
  | i, sh :: rest, c =>
      let c1 :=
        if sh.made then
          { c with stats := ftMadeEffect c.stats shooter offT,
                   log := push c.log .ftMadeK
                     (shooter ++ " makes the " ++ ordinalName i ++ " free throw.") }
        else
          { c with stats := ftMissedEffect c.stats shooter offT,
                   log := push c.log .ftMissK
                     (shooter ++ " misses the " ++ ordinalName i ++ " free throw.") }
      let c2 :=
        if rest.isEmpty then
          if sh.made then { c1 with possession := defT, ball := none }
          else
            let rebTeam := if rebOff then offT else defT
            { c1 with stats := (if rebOff then rebOffEffect else rebDefEffect)
                        c1.stats rebounder rebTeam,
                      log := push c1.log .reboundK
                        ("Rebound by " ++ rebounder ++ "."),
                      possession := rebTeam, ball := some rebounder }
        else c1
      let c3 :=
        if rest.isEmpty then c2
        else
          let r1 := applySubOpt coachO offT sh.subOff c2.lineups c2.log
          let r2 := applySubOpt coachD defT sh.subDef r1.1 r1.2
          { c2 with lineups := r2.1, log := r2.2 }
      ftLoop offT defT coachO coachD shooter rebOff rebounder (i + 1) rest c3

/-- A log record produced by the `ft_made` or `ft_missed` template. -/
def isFtLine (e : LogEntry) : Bool :=
  e.kind == EKind.ftMadeK || e.kind == EKind.ftMissK

lemma countFt_applySubOpt (coach : String) (t : TeamName)
    (ch : Option (Player × Player)) (lineups : TeamName → Lineup)
    (log : List LogEntry) :
    ((applySubOpt coach t ch lineups log).2).countP isFtLine
      = log.countP isFtLine := by
  cases ch with
  | none => rfl
  | some pr =>
      obtain ⟨pout, pin⟩ := pr
      simp [applySubOpt, push, List.countP_append, isFtLine, List.countP_cons]

/-- C6: a three-shot free-throw sequence (as produced by
`shooting_foul_3pt`) emits exactly 3 free-throw narrative lines, and
only the last shot's outcome decides what follows: a made last shot
flips possession to the defense and clears the ball; a missed last shot
hands possession to the rebounding team with the rebounder holding the
ball.  The first two shots' outcomes (and any interleaved
substitutions) do not appear in the possession result at all. -/
theorem ft3_scenario (offT defT : TeamName) (coachO coachD : String)
    (shooter : Player) (rebOff : Bool) (rebounder : Player)
    (s1 s2 s3 : FTShot) (c : FTCtx) :
    ((ftLoop offT defT coachO coachD shooter rebOff rebounder 0
        [s1, s2, s3] c).log.countP isFtLine = c.log.countP isFtLine + 3) ∧
    (ftLoop offT defT coachO coachD shooter rebOff rebounder 0
        [s1, s2, s3] c).possession
      = (if s3.made then defT else if rebOff then offT else defT) ∧
    (ftLoop offT defT coachO coachD shooter rebOff rebounder 0
        [s1, s2, s3] c).ball
      = (if s3.made then none else some rebounder) := by
  obtain ⟨m1, o1, d1⟩ := s1
  obtain ⟨m2, o2, d2⟩ := s2
  obtain ⟨m3, o3, d3⟩ := s3
  refine ⟨?_, ?_, ?_⟩ <;>
    cases m1 <;> cases m2 <;> cases m3 <;> cases rebOff <;>
      simp [ftLoop, countFt_applySubOpt, push, List.countP_append,
        List.countP_cons, isFtLine]

/-! ### Final score assembly (C4) -/

/-- The `final_score` string assembled by the `true_report_data` block:
`"{team_names[0]}: {points_A}, {team_names[1]}: {points_B}"`. -/
def mkFinalScore (tA tB : TeamName) (pA pB : Int) : String :=
  tA ++ ": " ++ toString pA ++ ", " ++ tB ++ ": " ++ toString pB

/-- The `final_score` field of the ground-truth report built from a
final simulation state: the interpolated integers are read from
`final_stats[team]["stats"]["points"]` of the two playing teams, in
matchup order. -/
def trueReportFinalScore (d : InitData) (s : GState) : String :=
  mkFinalScore d.teamA d.teamB
    ((s.stats d.teamA).stats.points) ((s.stats d.teamB).stats.points)

/-- C4: for every generated report, the two integers embedded in the
`final_score` string are exactly the `points` aggregates recorded in
`final_stats` for the two teams, in order. -/
theorem final_score_conservation (d : InitData) (s : GState)
    (hd : InitOK d) (hr : ReachFrom (initState d) s) :
    ∃ N M : Int,
      trueReportFinalScore d s = mkFinalScore d.teamA d.teamB N M ∧
      N = (s.stats d.teamA).stats.points ∧
      M = (s.stats d.teamB).stats.points :=
  ⟨_, _, rfl, rfl, rfl⟩

/-- Witness for C4 on the concrete score-then-overturn trace. -/
theorem final_score_conservation_witness :
    ∃ N M : Int,
      trueReportFinalScore witInit witStateC
        = mkFinalScore witInit.teamA witInit.teamB N M ∧
      N = (witStateC.stats witInit.teamA).stats.points ∧
      M = (witStateC.stats witInit.teamB).stats.points :=
  final_score_conservation witInit witStateC witInitOK witReachAC

end GenData
